import Mathlib

set_option maxRecDepth 100000

/-!
Verification of the gaterunner fingerprint-spoofing pipeline.

The Python sources under scrutiny are embedded shallowly: strings are
lists of characters, the global random generator is an explicit stream
of draws threaded through each function, external collaborators
(hashlib md5, the ua-parser OS table, the zone.tab data file, the
shapely geometry kernel, the on-disk template directory) appear as
function parameters, and exceptions become Option/Except results.
-/

/-- Characters of a Python `str`. -/
abbrev Str := List Char

/-- Coerce a Lean string literal to the character-list representation. -/
def S (s : String) : Str := s.data

/-- Python `str.lower()` (ASCII inputs). -/
def strLower (s : Str) : Str := s.map Char.toLower

/-- Python `str.upper()` (ASCII inputs). -/
def strUpper (s : Str) : Str := s.map Char.toUpper

/-- Does `pat` start the string `s`? (Python `s.startswith(pat)`). -/
def startsWith : Str → Str → Bool
  | [], _ => true
  | _ :: _, [] => false
  | p :: ps, c :: cs => p == c && startsWith ps cs

/-- Python substring test `needle in hay`. -/
def occursIn (needle : Str) : Str → Bool
  | [] => needle.isEmpty
  | c :: t => startsWith needle (c :: t) || occursIn needle t

/-- Python `s.endswith(pat)`. -/
def endsWith (pat s : Str) : Bool :=
  startsWith pat.reverse s.reverse

/-- Python `str.strip()` (whitespace at both ends, ASCII). -/
def pyStrip (s : Str) : Str :=
  (s.dropWhile (fun c => c == ' ' || c == '\t' || c == '\n' || c == '\r')).reverse
    |>.dropWhile (fun c => c == ' ' || c == '\t' || c == '\n' || c == '\r') |>.reverse

/-- Python `s.split(sep)` for a one-character separator, no maxsplit. -/
def splitChar (sep : Char) : Str → List Str
  | [] => [[]]
  | c :: t =>
      if c == sep then [] :: splitChar sep t
      else match splitChar sep t with
        | [] => [[c]]
        | h :: r => (c :: h) :: r

/-- Python `s.split(sep, maxsplit)` for a one-character separator. -/
def splitCharN (sep : Char) : Nat → Str → List Str
  | _, [] => [[]]
  | 0, s => [s]
  | Nat.succ n, c :: t =>
      if c == sep then [] :: splitCharN sep n t
      else match splitCharN sep (Nat.succ n) t with
        | [] => [[c]]
        | h :: r => (c :: h) :: r

/-- Python `sep.join(parts)` for a one-character separator. -/
def joinChar (sep : Char) : List Str → Str
  | [] => []
  | [p] => p
  | p :: r => p ++ sep :: joinChar sep r

/-- Python `s.split(sep, 1)` on a one-character separator: head part. -/
def splitHead (sep : Char) (s : Str) : Str :=
  s.takeWhile (fun c => c != sep)

/-- Digits `0-9`. -/
def isDigitCh (c : Char) : Bool := '0' ≤ c && c ≤ '9'

/-- Parse a nonempty digit run as a natural number (Python `int`). -/
def digitsToNat (s : Str) : Nat :=
  s.foldl (fun a c => a * 10 + (c.toNat - '0'.toNat)) 0

/-!
### A small total regex engine

The Python sources use `re.search` with a handful of simple patterns.
Each pattern is compiled by hand into a sequence of atoms; matching uses
ordered backtracking (greedy quantifiers, leftmost start position), the
semantics `re.search` has on these patterns.  One capture group is
supported via the `pre`/`grp`/`post` split of `RePat`.
-/

/-- Quantifier on a character class. -/
inductive RQuant | one | opt | star | plus
deriving DecidableEq, Repr

/-- A regex atom: a literal string, an alternation of literal strings,
or a quantified character class given by a predicate. -/
inductive RAtom
  | lit (s : Str)
  | alts (ss : List Str)
  | cls (p : Char → Bool) (q : RQuant)

/-- Case-insensitive character comparison when `ci` is set. -/
def chEq (ci : Bool) (a b : Char) : Bool :=
  if ci then a.toLower == b.toLower else a == b

/-- Literal-prefix test under the case-insensitivity flag. -/
def litMatch (ci : Bool) : Str → Str → Bool
  | [], _ => true
  | _ :: _, [] => false
  | p :: ps, c :: cs => chEq ci p c && litMatch ci ps cs

/-- All ways one atom can consume a prefix of `s`, as the remaining
suffixes, in the backtracking order the Python engine would try
(greedy: longest first). -/
def atomRests (ci : Bool) (a : RAtom) (s : Str) : List Str :=
  match a with
  | .lit l => if litMatch ci l s then [s.drop l.length] else []
  | .alts ls => ls.filterMap (fun l => if litMatch ci l s then some (s.drop l.length) else none)
  | .cls p q =>
      let run := (s.takeWhile p).length
      match q with
      | .one => if run ≥ 1 then [s.drop 1] else []
      | .opt => if run ≥ 1 then [s.drop 1, s] else [s]
      | .plus => (List.range run).reverse.map (fun k => s.drop (k + 1))
      | .star => (List.range (run + 1)).reverse.map (fun k => s.drop k)

/-- Match a sequence of atoms against a prefix of `s`, feeding each
remaining suffix to the continuation until it succeeds. -/
def matchAtoms (ci : Bool) : List RAtom → Str → (Str → Option Str) → Option Str
  | [], s, k => k s
  | a :: as, s, k => (atomRests ci a s).findSome? (fun rest => matchAtoms ci as rest k)

/-- A pattern with a single capture group: `pre (grp) post`. -/
structure RePat where
  ci : Bool := false
  pre : List RAtom
  grp : List RAtom
  post : List RAtom

/-- Try the pattern at the very start of `s`, returning the capture. -/
def reMatchHere (pat : RePat) (s : Str) : Option Str :=
  matchAtoms pat.ci pat.pre s (fun r1 =>
    matchAtoms pat.ci pat.grp r1 (fun r2 =>
      matchAtoms pat.ci pat.post r2 (fun _ =>
        some (r1.take (r1.length - r2.length)))))

/-- Python `re.search`: leftmost starting position wins, the capture
group's text is returned. -/
def reSearch (pat : RePat) (s : Str) : Option Str :=
  (List.range (s.length + 1)).findSome? (fun i => reMatchHere pat (s.drop i))

/-- Convenience: class atom on a digit. -/
def dCls (q : RQuant) : RAtom := .cls isDigitCh q

/-- Characters allowed in `[0-9.]` version classes. -/
def isVerCh (c : Char) : Bool := isDigitCh c || c == '.'

/-- Characters allowed in `[\d_]` classes. -/
def isDigUnd (c : Char) : Bool := isDigitCh c || c == '_'

/-- Python regex `.` (any character but a newline). -/
def anyCh (c : Char) : Bool := c != '\n'

/-!
### clienthints.py

The consolidated UA parsing library (`src/src/clienthints.py`).  The
external `ua_parser` library is modelled as a function parameter
`uaOsFamily : Str → Str` returning `Parse(ua)['os']['family']`.
-/

/-- `ARCH_PATTERNS` of clienthints.py: needle substrings mapped to
`(architecture, bitness, wow64)`. -/
def ARCH_PATTERNS : List (List Str × (Str × Str × Bool)) :=
  [ ([S "wow64"], (S "x86", S "32", true)),
    ([S "amd64", S "x86_64", S "win64", S "x64", S "ia64"], (S "x86", S "64", false)),
    ([S "i686", S "i386", S "x86"], (S "x86", S "32", false)),
    ([S "arm64", S "aarch64", S "armv8"], (S "arm", S "64", false)),
    ([S "armv7", S "armv6", S "arm;"], (S "arm", S "32", false)) ]

/-- `_detect_arch` of clienthints.py. -/
def detect_arch (ua_lower : Str) : Str × Str × Bool :=
  match ARCH_PATTERNS.find? (fun pr => pr.1.any (fun n => occursIn n ua_lower)) with
  | some pr => pr.2
  | none => (S "", S "", false)

/-- Regex `Android [\d.]+; ([^;/)]+) Build/` of `_detect_model`. -/
def modelRe1 : RePat :=
  { pre := [.lit (S "Android "), .cls isVerCh .plus, .lit (S "; ")],
    grp := [.cls (fun c => c != ';' && c != '/' && c != ')') .plus],
    post := [.lit (S " Build/")] }

/-- Regex `Android [\d.]+; ([^;)]+)` of `_detect_model` (relaxed fallback). -/
def modelRe2 : RePat :=
  { pre := [.lit (S "Android "), .cls isVerCh .plus, .lit (S "; ")],
    grp := [.cls (fun c => c != ';' && c != ')') .plus],
    post := [] }

/-- Regex `\((iP(?:hone|ad|od)[^;)]*)` of `_detect_model`. -/
def modelRe3 : RePat :=
  { pre := [.lit (S "(")],
    grp := [.lit (S "iP"), .alts [S "hone", S "ad", S "od"],
            .cls (fun c => c != ';' && c != ')') .star],
    post := [] }

/-- `_detect_model` of clienthints.py. -/
def detect_model (ua : Str) : Str :=
  match reSearch modelRe1 ua with
  | some m => pyStrip m
  | none =>
      match reSearch modelRe2 ua with
      | some m => pyStrip m
      | none =>
          match reSearch modelRe3 ua with
          | some m => pyStrip m
          | none => S ""

/-- `_detect_platform` of clienthints.py: normalize the parsed OS family. -/
def detect_platform (family : Str) : Str :=
  let mapping : List (List Str × Str) :=
    [ ([S "Windows", S "Windows NT"], S "Windows"),
      ([S "Mac OS X", S "Mac OS"], S "macOS"),
      ([S "Chrome OS"], S "Chrome OS"),
      ([S "Android"], S "Android"),
      ([S "iOS", S "iPhone OS"], S "iOS"),
      ([S "KaiOS"], S "KaiOS"),
      ([S "Linux"], S "Linux") ]
  match mapping.find? (fun kv => kv.1.contains family) with
  | some kv => kv.2
  | none => family

/-- `_detect_platform_version` of clienthints.py. -/
def detect_platform_version (platform ua : Str) : Str :=
  let rx : Option RePat :=
    if platform = S "Windows" then
      some { pre := [.lit (S "Windows NT ")], grp := [.cls isVerCh .plus], post := [] }
    else if platform = S "macOS" then
      some { pre := [.lit (S "Mac OS X ")], grp := [.cls isDigUnd .plus], post := [] }
    else if platform = S "Android" then
      some { pre := [.lit (S "Android ")], grp := [.cls isVerCh .plus], post := [] }
    else if platform = S "iOS" then
      some { pre := [.lit (S "OS ")], grp := [.cls isDigUnd .plus], post := [] }
    else if platform = S "Chrome OS" then
      some { pre := [.lit (S "CrOS "), .cls (fun c => c != ' ') .plus, .lit (S " ")],
             grp := [.cls isVerCh .plus], post := [] }
    else if platform = S "KaiOS" then
      some { pre := [.lit (S "KAIOS/")], grp := [.cls isVerCh .plus], post := [] }
    else none
  match rx with
  | some pat =>
      match reSearch pat ua with
      | some m => m.map (fun c => if c == '_' then '.' else c)
      | none => S ""
  | none => S ""

/-- High-entropy hint record produced by `extract_high_entropy_hints`. -/
structure Entropy where
  architecture : Str
  bitness : Str
  wow64 : Bool
  model : Str
  platform : Str
  platformVersion : Str
deriving DecidableEq, Repr

/-- `extract_high_entropy_hints` of clienthints.py; `uaOsFamily` stands
for the external `user_agent_parser.Parse(ua)['os']['family']`. -/
def extract_high_entropy_hints (uaOsFamily : Str → Str) (ua : Str) : Entropy :=
  let lowered := strLower ua
  let abw := detect_arch lowered
  let platform := detect_platform (uaOsFamily ua)
  { architecture := abw.1, bitness := abw.2.1, wow64 := abw.2.2,
    model := detect_model ua, platform := platform,
    platformVersion := detect_platform_version platform ua }

/-- Version-capture pattern `NAME/([0-9.]+)` (case sensitive). -/
def brandRe (name : String) : RePat :=
  { pre := [.lit (S name), .lit (S "/")], grp := [.cls isVerCh .plus], post := [] }

/-- The ordered brand pattern table of `parse_chromium_ua`. -/
def CHROMIUM_UA_PATTERNS : List (RePat × Str) :=
  [ ({ pre := [.lit (S "Edg"), .cls (fun c => c == 'A') .opt, .lit (S "/")],
       grp := [.cls isVerCh .plus], post := [] }, S "Microsoft Edge"),
    (brandRe "OPR", S "Opera"),
    (brandRe "YaBrowser", S "Yandex"),
    (brandRe "Brave", S "Brave"),
    (brandRe "Chrome", S "Google Chrome"),
    (brandRe "Chromium", S "Chromium"),
    (brandRe "QQBrowser", S "QQBrowser"),
    (brandRe "UCBrowser", S "UC Browser") ]

/-- `parse_chromium_ua` of clienthints.py: `(brand, version)` of the
first matching pattern, `none` for `(None, None)`. -/
def parse_chromium_ua (ua : Str) : Option (Str × Str) :=
  CHROMIUM_UA_PATTERNS.findSome? (fun pb => (reSearch pb.1 ua).map (fun v => (pb.2, v)))

/-- Pattern `(?:Chrome|Chromium)/([0-9.]+)`. -/
def chromiumVerRe : RePat :=
  { pre := [.alts [S "Chrome", S "Chromium"], .lit (S "/")],
    grp := [.cls isVerCh .plus], post := [] }

/-- `parse_chromium_version` of clienthints.py. -/
def parse_chromium_version (ua : Str) : Option Str := reSearch chromiumVerRe ua

/-- `parse_chromium_full_version` of clienthints.py (same pattern). -/
def parse_chromium_full_version (ua : Str) : Option Str := reSearch chromiumVerRe ua

/-- Python `version.split('.')[0]`. -/
def majorOf (v : Str) : Str := splitHead '.' v

/-- A stream of raw draws standing for Python's global `random` state. -/
abbrev Rng := List Nat

/-- Draw a natural below `n` (models `random._randbelow`); an exhausted
stream yields 0, a case no theorem in this file relies on. -/
def nextNat (rng : Rng) (n : Nat) : Nat × Rng :=
  match rng with
  | [] => (0, [])
  | r :: t => (r % n, t)

/-- Swap two positions of a list (helper for the Fisher-Yates shuffle). -/
def listSwap (l : List α) (i j : Nat) : List α :=
  match l.get? i, l.get? j with
  | some a, some b => (l.set i b).set j a
  | _, _ => l

/-- `random.shuffle`: Fisher-Yates from the top index downwards. -/
def pyShuffle (l : List α) (rng : Rng) : List α × Rng :=
  let rec go : List Nat → List α → Rng → List α × Rng
    | [], x, r => (x, r)
    | i :: is, x, r =>
        let jr := nextNat r (i + 1)
        go is (listSwap x i jr.1) jr.2
  go ((List.range l.length).drop 1).reverse l rng

/-- Keep the first occurrence of every brand (the `seen` filter shared
by both Sec-CH-UA generators). -/
def uniqueByBrand (l : List (Str × Str)) : List (Str × Str) :=
  let rec go (seen : List Str) : List (Str × Str) → List (Str × Str)
    | [] => []
    | bv :: r => if seen.contains bv.1 then go seen r else bv :: go (bv.1 :: seen) r
  go [] l

/-- Format one `"brand";v="ver"` item. -/
def chItem (bv : Str × Str) : Str :=
  S "\"" ++ bv.1 ++ S "\";v=\"" ++ bv.2 ++ S "\""

/-- Python `', '.join(items)`. -/
def joinComma : List Str → Str
  | [] => []
  | [x] => x
  | x :: r => x ++ S ", " ++ joinComma r

/-- `generate_sec_ch_ua` of clienthints.py; the GREASE shuffle consumes
the random stream, a non-Chromium UA raises `ValueError`. -/
def generate_sec_ch_ua (ua : Str) (rng : Rng) : Except String (Str × Rng) :=
  match parse_chromium_ua ua, parse_chromium_version ua with
  | some bv, some cv =>
      let brands := [(S "Chromium", majorOf cv), (S "Not-A.Brand", S "99"), (bv.1, majorOf bv.2)]
      let shuffled := pyShuffle (uniqueByBrand brands) rng
      .ok (joinComma (shuffled.1.map chItem), shuffled.2)
  | _, _ => .error "Not a recognized Chromium-based UA string"

/-- `generate_sec_ch_ua_full_version_list` of clienthints.py (no shuffle). -/
def generate_sec_ch_ua_full_version_list (ua : Str) : Except String Str :=
  match parse_chromium_ua ua, parse_chromium_full_version ua with
  | some bv, some cv =>
      let brands := [(S "Chromium", cv), (S "Not-A.Brand", S "99.0.0.0"), (bv.1, cv)]
      .ok (joinComma ((uniqueByBrand brands).map chItem))
  | _, _ => .error "Not a recognized Chromium-based UA string"

/-- The ordered `(pattern, minimum version)` table of `send_ch`
(patterns run against the lowercased UA). -/
def CH_BROWSERS : List (RePat × Nat) :=
  [ ({ pre := [.lit (S "chrome/")], grp := [dCls .plus], post := [] }, 89),
    ({ pre := [.lit (S "crios/")], grp := [dCls .plus], post := [] }, 89),
    ({ pre := [.lit (S "edg"), .cls (fun c => c == 'a') .opt, .lit (S "/")],
       grp := [dCls .plus], post := [] }, 90),
    ({ pre := [.lit (S "opr/")], grp := [dCls .plus], post := [] }, 75),
    ({ pre := [.lit (S "yabrowser/")], grp := [dCls .plus], post := [] }, 1),
    ({ pre := [.lit (S "miui browser/")], grp := [dCls .plus], post := [] }, 1),
    ({ pre := [.lit (S "qqbrowser/")], grp := [dCls .plus], post := [] }, 10),
    ({ pre := [.lit (S "android"), .cls anyCh .star, .lit (S "version/")],
       grp := [dCls .plus], post := [.cls anyCh .star, .lit (S "chrome")] }, 84) ]

/-- The Firefox/Safari exclusion test of `send_ch`, with Python's
`and`-binds-tighter-than-`or` precedence: the Safari clause only fires
together with `ucbrowser`. -/
def sendChExcluded (ua : Str) : Bool :=
  occursIn (S "firefox") ua ||
    (occursIn (S "safari") ua && occursIn (S "ucbrowser") ua &&
      !occursIn (S "chrome") ua && !occursIn (S "chromium") ua)

/-- The pattern loop of `send_ch`: the first matching pattern decides by
its version floor (the `int()` ValueError branch is dead, `\d+` always
parses). -/
def sendChLoop : List (RePat × Nat) → Str → Bool
  | [], _ => false
  | pf :: rest, ua =>
      match reSearch pf.1 ua with
      | some v => decide (digitsToNat v ≥ pf.2)
      | none => sendChLoop rest ua

/-- `send_ch` of clienthints.py. -/
def send_ch (ua0 : Str) : Bool :=
  let ua := strLower ua0
  if sendChExcluded ua then false
  else sendChLoop CH_BROWSERS ua

/-- The claim's reading of `supportsClientHints`: the UA's own brand
token decides (brand-specific tokens checked before the generic
`chrome/` one, so an Edge UA is held to the Edge ≥ 90 floor), Firefox
and Safari are false.  This is the specification-side definition that
claim C3 is compared against. -/
def sendChSpec (ua0 : Str) : Bool :=
  let ua := strLower ua0
  if occursIn (S "firefox") ua then false
  else
    let brandTable : List (RePat × Nat) :=
      [ ({ pre := [.lit (S "edg"), .cls (fun c => c == 'a') .opt, .lit (S "/")],
           grp := [dCls .plus], post := [] }, 90),
        ({ pre := [.lit (S "opr/")], grp := [dCls .plus], post := [] }, 75),
        ({ pre := [.lit (S "yabrowser/")], grp := [dCls .plus], post := [] }, 1),
        ({ pre := [.lit (S "miui browser/")], grp := [dCls .plus], post := [] }, 1),
        ({ pre := [.lit (S "qqbrowser/")], grp := [dCls .plus], post := [] }, 10),
        ({ pre := [.lit (S "crios/")], grp := [dCls .plus], post := [] }, 89),
        ({ pre := [.lit (S "chrome/")], grp := [dCls .plus], post := [] }, 89),
        ({ pre := [.lit (S "android"), .cls anyCh .star, .lit (S "version/")],
           grp := [dCls .plus], post := [.cls anyCh .star, .lit (S "chrome")] }, 84) ]
    match brandTable.findSome? (fun pf => (reSearch pf.1 ua).map (fun v => (digitsToNat v, pf.2))) with
    | some vf => decide (vf.1 ≥ vf.2)
    | none => false

/-!
### Python dict and value helpers
-/

/-- The apostrophe character (kept out of string literals). -/
def apos : Char := Char.ofNat 39

/-- Python dict assignment `d[k] = v`: overwrite in place, else append. -/
def dictSet (d : List (Str × α)) (k : Str) (v : α) : List (Str × α) :=
  if (d.find? (fun kv => kv.1 == k)).isSome then
    d.map (fun kv => if kv.1 == k then (k, v) else kv)
  else d ++ [(k, v)]

/-- Python `d.get(k)`. -/
def dictGet? (d : List (Str × α)) (k : Str) : Option α :=
  (d.find? (fun kv => kv.1 == k)).map (fun kv => kv.2)

/-- Python `d.update(u)`. -/
def dictUpdate (d u : List (Str × α)) : List (Str × α) :=
  u.foldl (fun acc kv => dictSet acc kv.1 kv.2) d

/-- A value stored in a template-variable dict (`str`, `bool`, `int` or
`None` in the Python source). -/
inductive TVal
  | s (v : Str)
  | b (v : Bool)
  | i (v : Int)
  | q (v : Rat)
  | noneV
deriving DecidableEq, Repr

/-- Decimal digits of a natural number. -/
def natToStr (n : Nat) : Str := Nat.toDigits 10 n

/-- Python `str()` on the value kinds above (`q` carries the Python
floats of the geolocation triple; its rendering stands for the float
repr and is never relied upon by a theorem). -/
def TVal.toStr : TVal → Str
  | .s v => v
  | .b v => if v then S "True" else S "False"
  | .i v => if v < 0 then '-' :: natToStr v.natAbs else natToStr v.natAbs
  | .q v => S (toString v)
  | .noneV => S "None"

/-- JSON string escaping (quote and backslash; the inputs used here
contain no control characters). -/
def jsonStr (s : Str) : Str :=
  '"' :: (s.flatMap (fun c => if c == '"' || c == '\\' then ['\\', c] else [c])) ++ ['"']

/-- `json.dumps` on a list of strings (default separators). -/
def jsonDumpsList (l : List Str) : Str :=
  S "[" ++ joinComma (l.map jsonStr) ++ S "]"

/-- Wrap a string in double quotes (the f-string `f'"{x}"'`). -/
def quoteStr (x : Str) : Str := '"' :: x ++ ['"']

/-!
### useragent.py - UserAgentGate

`_accept_ch_by_origin` is a class attribute of the gate: one mutable
dict per process, shared by every instance; it is modelled as an
explicit `Memo` value owned by the process, not by a gate instance.
-/

/-- The per-process `Accept-CH` memo (origin -> requested hints). -/
abbrev Memo := List (Str × List Str)

/-- `"/".join(url.split("/", 3)[:3])` - the origin key used by both the
tracker and `inject_headers`. -/
def origin_of (url : Str) : Str :=
  joinChar '/' ((splitCharN '/' 3 url).take 3)

/-- The response listener `_track` registered by `UserAgentGate.handle`:
memoize the Accept-CH header of a response by origin. -/
def track (memo : Memo) (resp_url : Str) (resp_accept_ch : Option Str) : Memo :=
  match resp_accept_ch with
  | some v =>
      if v.isEmpty then memo
      else dictSet memo (origin_of resp_url)
        ((splitChar ',' v).map (fun h => strLower (pyStrip h)))
  | none => memo

namespace UserAgentGate

/-- `UserAgentGate.handle` registers the Accept-CH tracker (and stores
`_user_agent`) only when a UA is configured and `send_ch` holds; the
early `return` otherwise leaves the context untouched. -/
def handle_registers (user_agent : Option Str) : Bool :=
  match user_agent with
  | some ua => !ua.isEmpty && send_ch ua
  | none => false

/-- The memo after a session processes its response events: the tracker
folds over them only when `handle` registered it. -/
def sessionMemo (registered : Bool) (memo0 : Memo)
    (events : List (Str × Option Str)) : Memo :=
  if registered then events.foldl (fun m ev => track m ev.1 ev.2) memo0 else memo0

/-- `UserAgentGate.get_headers`: `user-agent` always, plus the static
client-hint trio when `send_ch` holds.  `generate_sec_ch_ua` may raise
`ValueError`, which propagates. -/
def get_headers (user_agent : Option Str) (rng : Rng) :
    Except String (List (Str × Str) × Rng) :=
  match user_agent with
  | none => .ok ([], rng)
  | some ua =>
      if ua.isEmpty then .ok ([], rng)
      else if send_ch ua then
        match generate_sec_ch_ua ua rng with
        | .ok secRng =>
            .ok ([(S "user-agent", ua),
                  (S "sec-ch-ua", secRng.1),
                  (S "sec-ch-ua-mobile", S "?0"),
                  (S "sec-ch-ua-platform", S "\"Windows\"")], secRng.2)
        | .error e => .error e
      else .ok ([(S "user-agent", ua)], rng)

/-- `UserAgentGate.inject_headers`: consult the shared memo for the
request's origin and emit only the hints that origin asked for.
`self._user_agent` is `none` when `handle` never stored it (reading it
then raises `AttributeError`); `generate_sec_ch_ua_full_version_list`
may raise `ValueError`. -/
def inject_headers (memo : Memo) (self_user_agent : Option Str)
    (uaOsFamily : Str → Str) (request_url : Str) :
    Except String (List (Str × Str)) :=
  let origin := origin_of request_url
  let requested := (dictGet? memo origin).getD []
  if requested.isEmpty then .ok []
  else
    match self_user_agent with
    | none => .error "AttributeError: _user_agent"
    | some ua =>
        let entropy := extract_high_entropy_hints uaOsFamily ua
        let h0 : List (Str × Str) := []
        let h1 := if requested.contains (S "sec-ch-ua-model") then
            h0 ++ [(S "sec-ch-ua-model", quoteStr entropy.model)] else h0
        let h2 := if requested.contains (S "sec-ch-ua-platform-version") then
            h1 ++ [(S "sec-ch-ua-platform-version", quoteStr entropy.platformVersion)] else h1
        let h3 := if requested.contains (S "sec-ch-ua-full-version") then
            h2 ++ [(S "sec-ch-ua-full-version",
                    match parse_chromium_full_version ua with
                    | some fv => quoteStr fv
                    | none => S "\"\"")] else h2
        let h4 := if requested.contains (S "sec-ch-ua-arch") then
            h3 ++ [(S "sec-ch-ua-arch", quoteStr entropy.architecture)] else h3
        let h5 := if requested.contains (S "sec-ch-ua-bitness") then
            h4 ++ [(S "sec-ch-ua-bitness", quoteStr entropy.bitness)] else h4
        let h6 := if requested.contains (S "sec-ch-ua-wow64") then
            h5 ++ [(S "sec-ch-ua-wow64", if entropy.wow64 then S "?1" else S "?0")] else h5
        if requested.contains (S "sec-ch-ua-full-version-list") then
          match generate_sec_ch_ua_full_version_list ua with
          | .ok v => .ok (h6 ++ [(S "sec-ch-ua-full-version-list", v)])
          | .error e => .error e
        else .ok h6

/-- The `platform_map` of `get_js_template_vars`, mapping a detected
platform to the `navigator.platform` value. -/
def platform_map (ua : Str) : List (Str × Str) :=
  [ (S "Windows", S "Win32"),
    (S "macOS", S "MacIntel"),
    (S "Linux", S "Linux x86_64"),
    (S "Android", S "Linux armv7l"),
    (S "iOS", if occursIn (S "iPhone") ua then S "iPhone"
              else if occursIn (S "iPad") ua then S "iPad" else S "iPhone"),
    (S "Chrome OS", S "Linux x86_64") ]

/-- The touch-script fragment contributed under `touch_js`. -/
def touchJs (mobile_flag : Bool) : Str :=
  if mobile_flag then
    S "Object.defineProperty(window, " ++ [apos] ++ S "ontouchstart" ++ [apos]
      ++ S ", \x7bvalue: null\x7d);"
  else
    S "if (" ++ [apos] ++ S "ontouchstart" ++ [apos]
      ++ S " in window) \x7b\x7d else Object.defineProperty(window, " ++ [apos]
      ++ S "ontouchstart" ++ [apos] ++ S ", \x7bvalue: null\x7d);"

/-- `UserAgentGate.get_js_template_vars` (Python keyword defaults:
`timezone_id="UTC"`, `rand_mem=8`; absent UA yields the empty dict). -/
def get_js_template_vars (uaOsFamily : Str → Str) (user_agent : Option Str)
    (timezone_id : Str) (accept_language : Option Str) (rand_mem : Int) :
    List (Str × TVal) :=
  match user_agent with
  | none => []
  | some ua =>
      if ua.isEmpty then []
      else
        let entropy := extract_high_entropy_hints uaOsFamily ua
        let brandPair := parse_chromium_ua ua
        let chromium_v := parse_chromium_version ua
        let mobile_flag := occursIn (S "mobile") (strLower ua)
        let js_platform := (dictGet? (platform_map ua) entropy.platform).getD (S "Win32")
        let languages :=
          match accept_language with
          | some al =>
              if al.isEmpty then [S "en-US", S "en"]
              else
                let primary := pyStrip (splitHead ',' al)
                if occursIn (S "-") primary then [primary, splitHead '-' primary]
                else [primary]
          | none => [S "en-US", S "en"]
        let brandV : TVal := match brandPair with | some bv => .s bv.1 | none => .noneV
        let brandVerV : TVal := match brandPair with | some bv => .s bv.2 | none => .noneV
        let uaFullV : TVal :=
          match parse_chromium_full_version ua with
          | some fv => .s fv
          | none => match chromium_v with | some cv => .s cv | none => .noneV
        [ (S "user_agent", .s ua),
          (S "USER_AGENT", .s ua),
          (S "chromium_v", .s (chromium_v.getD (S ""))),
          (S "brand", brandV),
          (S "brand_v", brandVerV),
          (S "uaFullVersion", uaFullV),
          (S "architecture", .s entropy.architecture),
          (S "bitness", .s entropy.bitness),
          (S "wow64", .s (strLower ((TVal.b entropy.wow64).toStr))),
          (S "model", .s entropy.model),
          (S "mobile", .b mobile_flag),
          (S "platform", .s js_platform),
          (S "platformVersion", .s entropy.platformVersion),
          (S "TZ", .s timezone_id),
          (S "__TZ__", .s timezone_id),
          (S "__RAND_MEM__", .i rand_mem),
          (S "RAND_MEM", .i rand_mem),
          (S "__LANG_JS__", .s (jsonDumpsList languages)),
          (S "LANG_JS", .s (jsonDumpsList languages)),
          (S "touch_js", .s (touchJs mobile_flag)),
          (S "__TOUCH_JS__", .s (touchJs mobile_flag)),
          (S "__BRAND__", brandV),
          (S "__BRAND_V__", brandVerV),
          (S "__PLATFORM__", .s js_platform),
          (S "__MOBILE__", .s (strLower ((TVal.b mobile_flag).toStr))),
          (S "__ARCH__", .s entropy.architecture),
          (S "__BITNESS__", .s entropy.bitness),
          (S "__MODEL__", .s entropy.model),
          (S "__PLATFORM_VERSION__", .s entropy.platformVersion),
          (S "__UA_FULL_VERSION__", uaFullV),
          (S "__WOW64__", .s (strLower ((TVal.b entropy.wow64).toStr))) ]

end UserAgentGate

/-!
### language.py, geolocation.py (template vars), timezone.py, webgl.py
-/

/-- A resolved geolocation triple (Python floats as rationals). -/
structure Geo where
  latitude : Rat
  longitude : Rat
  accuracy : Rat
deriving DecidableEq, Repr

namespace LanguageGate

/-- `LanguageGate.get_js_template_vars`. -/
def get_js_template_vars (accept_language language : Option Str)
    (timezone_id : Str) (user_agent : Option Str) : List (Str × TVal) :=
  let lang_header :=
    match accept_language with
    | some al => if al.isEmpty then language.getD (S "") else al
    | none => language.getD (S "")
  if lang_header.isEmpty then []
  else
    let primary := pyStrip (splitHead ',' lang_header)
    let languages :=
      if occursIn (S "-") primary then [primary, splitHead '-' primary] else [primary]
    [ (S "__LANG_JS__", .s (jsonDumpsList languages)),
      (S "__TZ__", .s timezone_id),
      (S "__USER_AGENT__", .s (user_agent.getD (S ""))) ]

end LanguageGate

namespace GeolocationGate

/-- `GeolocationGate.get_js_template_vars`: rational values stand for
the Python floats. -/
def get_js_template_vars (geolocation : Option Geo) : List (Str × TVal) :=
  match geolocation with
  | none => []
  | some g =>
      [ (S "__LATITUDE__", .q g.latitude),
        (S "__LONGITUDE__", .q g.longitude),
        (S "__ACCURACY__", .q g.accuracy) ]

end GeolocationGate

/-- `random.choice(seq)`: draw an index below the length (an empty
sequence raises `IndexError`, modelled as `none`). -/
def randomChoice (l : List α) (rng : Rng) : Option (α × Rng) :=
  match l with
  | [] => none
  | _ :: _ =>
      let jr := nextNat rng l.length
      (l.get? jr.1).map (fun a => (a, jr.2))

/-- The parsed `zone.tab` data file: country code -> zone list. -/
abbrev ZoneTab := List (Str × List Str)

namespace TimezoneGate

/-- `TimezoneGate.select_timezone_for_country`: uniform pick from the
country's pool, `UTC` when the country is absent or unmapped. -/
def select_timezone_for_country (tab : ZoneTab) (country_code : Option Str)
    (rng : Rng) : Option (Str × Rng) :=
  match country_code with
  | none => some (S "UTC", rng)
  | some c =>
      if c.isEmpty then some (S "UTC", rng)
      else
        match dictGet? tab (strUpper c) with
        | some zs => randomChoice zs rng
        | none => some (S "UTC", rng)

/-- `TimezoneGate.get_js_template_vars`. -/
def get_js_template_vars (tab : ZoneTab) (country : Option Str) (rng : Rng) :
    Option (List (Str × TVal) × Rng) :=
  (select_timezone_for_country tab country rng).map (fun tz =>
    ([(S "__TIMEZONE__", .s tz.1), (S "timezone_id", .s tz.1)], tz.2))

end TimezoneGate

namespace WebGLGate

/-- `WEBGL_BY_OS` of webgl.py. -/
def WEBGL_BY_OS : List (Str × List (Str × Str)) :=
  [ (S "windows",
      [ (S "NVIDIA Corporation", S "NVIDIA GeForce RTX 3060/PCIe/SSE2"),
        (S "NVIDIA Corporation", S "NVIDIA GeForce GTX 1060/PCIe/SSE2"),
        (S "NVIDIA Corporation", S "NVIDIA GeForce GTX 1650/PCIe/SSE2"),
        (S "Intel", S "Intel(R) HD Graphics 530"),
        (S "Intel", S "Intel(R) Iris(R) Xe Graphics"),
        (S "AMD", S "AMD Radeon RX 580"),
        (S "AMD", S "AMD Radeon RX 6700 XT") ]),
    (S "mac",
      [ (S "Apple Inc.", S "Apple M1"),
        (S "Apple Inc.", S "Apple M2"),
        (S "Apple Inc.", S "AMD Radeon Pro 560X") ]),
    (S "linux",
      [ (S "Intel", S "Mesa Intel(R) UHD Graphics 620 (KBL GT2)"),
        (S "AMD", S "AMD Radeon RX 570 Series (POLARIS10, DRM 3.35.0, 5.4.0-42-generic, LLVM 10.0.0)"),
        (S "NVIDIA Corporation", S "NVIDIA GeForce RTX 3060/PCIe/SSE2") ]),
    (S "android",
      [ (S "Qualcomm", S "Adreno (TM) 640"),
        (S "ARM", S "Mali-G76 MP16"),
        (S "Qualcomm", S "Adreno (TM) 730") ]),
    (S "ios",
      [ (S "Apple Inc.", S "Apple A15 GPU"),
        (S "Apple Inc.", S "Apple A14 GPU"),
        (S "Apple Inc.", S "Apple A16 GPU") ]) ]

/-- `WebGLGate._ua_os_family`. -/
def ua_os_family (ua : Str) : Str :=
  let low := strLower ua
  if occursIn (S "windows") low then S "windows"
  else if occursIn (S "mac os") low || occursIn (S "macos") low then S "mac"
  else if occursIn (S "android") low then S "android"
  else if occursIn (S "iphone") low || occursIn (S "ipad") low || occursIn (S "ios") low then S "ios"
  else if occursIn (S "cros") low || occursIn (S "chrome os") low then S "chromeos"
  else S "linux"

/-- `WebGLGate._pick_webgl_pair_from_ua`. -/
def pick_webgl_pair_from_ua (ua : Str) (rng : Rng) : Option ((Str × Str) × Rng) :=
  let fam := ua_os_family ua
  let pool :=
    match dictGet? WEBGL_BY_OS fam with
    | some p => p
    | none => (dictGet? WEBGL_BY_OS (S "windows")).getD []
  randomChoice pool rng

/-- `WebGLGate.get_js_template_vars`. -/
def get_js_template_vars (webgl_vendor webgl_renderer user_agent : Option Str)
    (rng : Rng) : Option (List (Str × TVal) × Rng) :=
  let emit : (Str × Str) × Rng → List (Str × TVal) × Rng := fun vr =>
    ([(S "__WEBGL_VENDOR__", .s vr.1.1), (S "__WEBGL_RENDERER__", .s vr.1.2)], vr.2)
  let tv := webgl_vendor.getD (S "")
  let tr := webgl_renderer.getD (S "")
  if !tv.isEmpty && !tr.isEmpty then some (emit ((tv, tr), rng))
  else
    match user_agent with
    | some ua =>
        if ua.isEmpty then some (emit ((S "Intel", S "Intel(R) HD Graphics 530"), rng))
        else (pick_webgl_pair_from_ua ua rng).map emit
    | none => some (emit ((S "Intel", S "Intel(R) HD Graphics 530"), rng))

end WebGLGate

/-!
### spoof_manager.py - the JS-patch phase of the orchestrator
-/

/-- The option bag (`**kwargs` dict) configured for one gate. -/
structure Opts where
  user_agent : Option Str := none
  timezone_id : Option Str := none
  accept_language : Option Str := none
  language : Option Str := none
  country : Option Str := none
  rand_mem : Option Int := none
  webgl_vendor : Option Str := none
  webgl_renderer : Option Str := none
  geolocation : Option Geo := none

/-- The gates this development models. -/
inductive Gate
  | geolocationG | referrerG | userAgentG | languageG | timezoneG | webglG
deriving DecidableEq, Repr

/-- `gate.name`. -/
def Gate.name : Gate → Str
  | .geolocationG => S "GeolocationGate"
  | .referrerG => S "ReferrerGate"
  | .userAgentG => S "UserAgentGate"
  | .languageG => S "LanguageGate"
  | .timezoneG => S "TimezoneGate"
  | .webglG => S "WebGLGate"

/-- `ALL_GATES` of `src/src/gates/__init__.py`: the module-level gate
list registers only four gates - no TimezoneGate, no WebGLGate. -/
def ALL_GATES : List Gate := [.geolocationG, .referrerG, .userAgentG, .languageG]

/-- `SpoofingManager.__init__`: `self.gates = gates or ALL_GATES`. -/
def spoofingManagerGates (gates : Option (List Gate)) : List Gate :=
  match gates with
  | some gs => if gs.isEmpty then ALL_GATES else gs
  | none => ALL_GATES

/-- The `gate_config` dict handed to the orchestrator. -/
structure GateConfig where
  entries : List (Str × Opts) := []
  gates_enabled : List (Str × Bool) := []
  browser_engine : Option Str := none

/-- `SpoofingManager._is_gate_enabled`. -/
def is_gate_enabled (g : Gate) (cfg : GateConfig) : Bool :=
  if (dictGet? cfg.entries g.name).isSome then true
  else (dictGet? cfg.gates_enabled g.name).getD true

/-- The option bag for a gate (`gate_config.get(gate.name, {})`). -/
def gateArgs (g : Gate) (cfg : GateConfig) : Opts :=
  (dictGet? cfg.entries g.name).getD {}

/-- `gate.get_js_template_vars(**args)` dispatch (keyword defaults of
each Python signature applied here). -/
def Gate.getJsTemplateVars (g : Gate) (tab : ZoneTab) (uaOsFamily : Str → Str)
    (o : Opts) (rng : Rng) : Option (List (Str × TVal) × Rng) :=
  match g with
  | .geolocationG => some (GeolocationGate.get_js_template_vars o.geolocation, rng)
  | .referrerG => some ([], rng)
  | .userAgentG =>
      some (UserAgentGate.get_js_template_vars uaOsFamily o.user_agent
        (o.timezone_id.getD (S "UTC")) o.accept_language (o.rand_mem.getD 8), rng)
  | .languageG =>
      some (LanguageGate.get_js_template_vars o.accept_language o.language
        (o.timezone_id.getD (S "UTC")) o.user_agent, rng)
  | .timezoneG => TimezoneGate.get_js_template_vars tab o.country rng
  | .webglG => WebGLGate.get_js_template_vars o.webgl_vendor o.webgl_renderer o.user_agent rng

/-- The special first pass of `_apply_js_patches`: scan `self.gates` for
the first enabled TimezoneGate, read its template vars once (consuming
random draws), keep its `timezone_id` and break; default `"UTC"`. -/
def collectSelectedTimezone (gates : List Gate) (tab : ZoneTab)
    (uaOsFamily : Str → Str) (cfg : GateConfig) (rng : Rng) : Option (Str × Rng) :=
  match gates with
  | [] => some (S "UTC", rng)
  | g :: gs =>
      if is_gate_enabled g cfg && g.name == S "TimezoneGate" then
        match g.getJsTemplateVars tab uaOsFamily (gateArgs g cfg) rng with
        | some vr =>
            match dictGet? vr.1 (S "timezone_id") with
            | some (.s tz) => some (tz, vr.2)
            | _ => some (S "UTC", vr.2)
        | none => none
      else collectSelectedTimezone gs tab uaOsFamily cfg rng

/-- The merge loop of `_apply_js_patches`: every enabled gate's vars are
collected into one dict (UserAgent and Language gates receive the
selected timezone as `timezone_id`), later gates overwriting earlier
keys. -/
def mergeTemplateVars (gates : List Gate) (tab : ZoneTab)
    (uaOsFamily : Str → Str) (cfg : GateConfig) (selected : Str)
    (acc : List (Str × TVal)) (rng : Rng) : Option (List (Str × TVal) × Rng) :=
  match gates with
  | [] => some (acc, rng)
  | g :: gs =>
      if is_gate_enabled g cfg then
        let o := gateArgs g cfg
        let o' := if g.name == S "UserAgentGate" || g.name == S "LanguageGate" then
            { o with timezone_id := some selected } else o
        match g.getJsTemplateVars tab uaOsFamily o' rng with
        | some vr => mergeTemplateVars gs tab uaOsFamily cfg selected (dictUpdate acc vr.1) vr.2
        | none => none
      else mergeTemplateVars gs tab uaOsFamily cfg selected acc rng

/-- Result of the JS-patch phase: the merged `all_template_vars` (also
persisted as `_last_template_vars`), the selected timezone, and the
advanced random stream. -/
structure JsPatchResult where
  mergedVars : List (Str × TVal)
  selectedTimezone : Str
  rng : Rng
deriving Repr

/-- `SpoofingManager._apply_js_patches`, template-variable phase. -/
def apply_js_patches (gates : List Gate) (tab : ZoneTab)
    (uaOsFamily : Str → Str) (cfg : GateConfig) (rng : Rng) : Option JsPatchResult :=
  match collectSelectedTimezone gates tab uaOsFamily cfg rng with
  | none => none
  | some sr =>
      match mergeTemplateVars gates tab uaOsFamily cfg sr.1 [] sr.2 with
      | none => none
      | some mr => some { mergedVars := mr.1, selectedTimezone := sr.1, rng := mr.2 }

/-- `_timezone_from_gate` of context.py: the timezone handed to the
driver is read from the GeolocationGate entry's `timezone_id` key,
default `"UTC"`. -/
def timezone_from_gate (cfg : GateConfig) : Str :=
  match dictGet? cfg.entries (S "GeolocationGate") with
  | some o => o.timezone_id.getD (S "UTC")
  | none => S "UTC"

/-!
### geolocation.py - point sampling inside the country polygon

The shapely geometry kernel is external: a polygon is modelled by its
bounding box, its area and its `contains` test, every one of which the
Python code only calls.
-/

/-- A stream of `random.random()` draws (rationals standing for the
Python floats in `[0, 1)`). -/
abbrev RngQ := List Rat

/-- Pull the next uniform draw; an exhausted stream yields 0 (no
theorem relies on that case). -/
def nextQ (rng : RngQ) : Rat × RngQ :=
  match rng with
  | [] => (0, [])
  | r :: t => (r, t)

/-- `random.uniform(a, b) = a + (b-a)*random()`. -/
def pyUniform (a b : Rat) (rng : RngQ) : Rat × RngQ :=
  let ur := nextQ rng
  (a + (b - a) * ur.1, ur.2)

/-- Python 3 `round` on a rational: nearest integer, ties to even. -/
def pyRound (x : Rat) : Int :=
  if x - ⌊x⌋ < 1/2 then ⌊x⌋
  else if 1/2 < x - ⌊x⌋ then ⌊x⌋ + 1
  else if ⌊x⌋ % 2 = 0 then ⌊x⌋ else ⌊x⌋ + 1

/-- A shapely `Polygon` as used by geolocation.py. -/
structure Polygon where
  minx : Rat
  miny : Rat
  maxx : Rat
  maxy : Rat
  containsQ : Rat → Rat → Bool
  area : Rat

/-- The stored geometry of a country row (`shapely.wkt.loads` result). -/
inductive Geometry
  | poly (p : Polygon)
  | multi (ps : List Polygon)
  | otherGeom

/-- One row of `COUNTRY_GEO` (from the `country_geo.csv` data file). -/
structure CountryGeo where
  latitude : Rat
  longitude : Rat
  accuracy : Int
  polygon_wkt : Geometry

/-- `random_point_polygon`: rejection-sample the bounding box until the
polygon contains the point; `none` models the `RuntimeError` after
`max_tries` misses (the advanced stream is returned either way). -/
def random_point_polygon (p : Polygon) : Nat → RngQ → Option (Rat × Rat) × RngQ
  | 0, rng => (none, rng)
  | Nat.succ n, rng =>
      let xr := pyUniform p.minx p.maxx rng
      let yr := pyUniform p.miny p.maxy xr.2
      if p.containsQ xr.1 yr.1 then (some (xr.1, yr.1), yr.2)
      else random_point_polygon p n yr.2

/-- Cumulative sums of a weight list (`itertools.accumulate`). -/
def cumsOf (ws : List Rat) : List Rat :=
  (ws.scanl (· + ·) 0).drop 1

/-- `random.choices(pop, weights, k=1)`: one uniform draw, located in
the cumulative-weight list by right-bisection, clamped to the top. -/
def pickWeighted (ws : List Rat) (u : Rat) : Nat :=
  let total := ws.foldl (· + ·) 0
  min ((cumsOf ws).takeWhile (fun c => decide (c ≤ u * total))).length (ws.length - 1)

/-- `random_point_multipolygon`: area-weighted component choice, ten
inner tries per outer try; a zero total area models the
`ZeroDivisionError` of the weight computation. -/
def random_point_multipolygon (ps : List Polygon) : Nat → RngQ → Option (Rat × Rat) × RngQ
  | 0, rng => (none, rng)
  | Nat.succ n, rng =>
      let ur := nextQ rng
      let areas := ps.map Polygon.area
      let total := areas.foldl (· + ·) 0
      let weights := areas.map (fun a => a / total)
      let idx := pickWeighted weights ur.1
      match ps.get? idx with
      | none => (none, ur.2)
      | some poly =>
          match random_point_polygon poly 10 ur.2 with
          | (some pt, rng') => (some pt, rng')
          | (none, rng') => random_point_multipolygon ps n rng'

/-- `jitter_country_location`: sample a point in the country geometry,
jitter the accuracy in `[100, 200]`.  `none` models the `KeyError` on
an unknown country, the `ValueError` on a non-polygon geometry, the
sampling `RuntimeError` and the zero-area division. -/
def jitter_country_location (table : List (Str × CountryGeo)) (cc : Str)
    (rng : RngQ) : Option (Geo × RngQ) :=
  match dictGet? table cc with
  | none => none
  | some row =>
      let sampled : Option (Rat × Rat) × RngQ :=
        match row.polygon_wkt with
        | .poly p => random_point_polygon p 100 rng
        | .multi ps =>
            let areas := ps.map Polygon.area
            if areas.foldl (· + ·) 0 = 0 then (none, rng)
            else random_point_multipolygon ps 100 rng
        | .otherGeom => (none, rng)
      match sampled with
      | (none, _) => none
      | (some pt, rng1) =>
          let ar := pyUniform 100 200 rng1
          some ({ latitude := pt.2, longitude := pt.1,
                  accuracy := (pyRound ar.1 : Int) }, ar.2)

/-!
### utils.py - safe_filename and the template loader

`hashlib.md5(...).hexdigest()` is the external collaborator `md5hex`;
every theorem assumes only that a hex digest has 32 characters.
-/

/-- `_MAX_FILENAME_LEN` of utils.py / resources.py. -/
def MAX_FILENAME_LEN : Int := 240

/-- `safe_filename` of utils.py (identical to `_safe_filename` of
resources.py): `stem + '_' + first-8-hex-of-md5(salt) + ext`, the stem
trimmed to the length budget, the stem dropped entirely when the budget
is below 8. -/
def safe_filename (md5hex : Str → Str) (stem ext salt : Str) : Str :=
  let salt_hash := (md5hex salt).take 8
  let budget : Int := MAX_FILENAME_LEN - ext.length - salt_hash.length - 1
  if budget < 8 then salt_hash ++ ext
  else
    let stem' := if (stem.length : Int) > budget then stem.take budget.toNat else stem
    stem' ++ '_' :: salt_hash ++ ext

/-- Python `str.replace(pat, rep)`: every non-overlapping occurrence,
scanning left to right (the empty pattern interleaves, as in Python;
placeholders here are never empty). -/
def substAll (pat rep : Str) (s : Str) : Str :=
  if hpe : pat.isEmpty then rep ++ s.flatMap (fun c => c :: rep)
  else
    match s with
    | [] => []
    | c :: t =>
        if startsWith pat (c :: t) then
          rep ++ substAll pat rep ((c :: t).drop pat.length)
        else c :: substAll pat rep t
termination_by s.length
decreasing_by
  · have hp : 1 ≤ pat.length := by
      cases pat with
      | nil => simp [List.isEmpty] at hpe
      | cons a b => simp
    simp only [List.length_drop, List.length_cons]
    omega
  · simp

/-- The placeholder for a variable name: upper-cased and wrapped in
double underscores unless already wrapped. -/
def placeholderOf (var_name : Str) : Str :=
  if startsWith (S "__") var_name && endsWith (S "__") var_name then var_name
  else S "__" ++ strUpper var_name ++ S "__"

/-- The rendering loop of `load_and_render_template`: one sequential
`str.replace` per variable, in dict iteration order. -/
def renderTemplate (template : Str) (vars : List (Str × TVal)) : Str :=
  vars.foldl (fun acc kv => substAll (placeholderOf kv.1) (kv.2.toStr) acc) template

/-- The loader's template cache. -/
abbrev Cache := List (Str × Str)

/-- `TemplateLoader.load_and_render_template`: serve the template from
the cache, else read it from the JS directory (`fs`) and cache it, then
render; a missing file raises `FileNotFoundError`. -/
def load_and_render_template (fs : Str → Option Str) (cache : Cache)
    (patch_name : Str) (vars : List (Str × TVal)) : Except String (Str × Cache) :=
  match dictGet? cache patch_name with
  | some tmpl => .ok (renderTemplate tmpl vars, cache)
  | none =>
      match fs patch_name with
      | none => .error "FileNotFoundError"
      | some tmpl => .ok (renderTemplate tmpl vars, dictSet cache patch_name tmpl)

/-- The specification-side reading of claim C9: one simultaneous pass,
each placeholder occurrence replaced by the value, values inserted
verbatim and never rescanned, text without placeholders untouched
(earlier entries of the map win where placeholders overlap). -/
def simSubst (vars : List (Str × TVal)) (s : Str) : Str :=
  match s with
  | [] => []
  | c :: t =>
      match h : vars.find? (fun kv => startsWith (placeholderOf kv.1) (c :: t)) with
      | some kv => kv.2.toStr ++ simSubst vars ((c :: t).drop (placeholderOf kv.1).length)
      | none => c :: simSubst vars t
termination_by s.length
decreasing_by
  · have hpl : 1 ≤ (placeholderOf kv.1).length := by
      unfold placeholderOf
      split
      · next hcond =>
          cases hk : kv.1 with
          | nil =>
              exfalso
              rw [hk] at hcond
              simp [S, startsWith] at hcond
          | cons a b => simp
      · simp [S]
    simp only [List.length_drop, List.length_cons]
    omega
  · simp

/-!
### resources.py - response capture
-/

/-- Python regex `\s` (the whitespace class). -/
def isSpaceCh (c : Char) : Bool :=
  c == ' ' || c == '\t' || c == '\n' || c == '\r' || c == '\x0b' || c == '\x0c'

/-- Hex digit value (both cases accepted, as in `urllib`). -/
def hexVal (c : Char) : Option Nat :=
  let n := c.toNat
  if 48 ≤ n && n ≤ 57 then some (n - 48)
  else if 97 ≤ n && n ≤ 102 then some (n - 87)
  else if 65 ≤ n && n ≤ 70 then some (n - 55)
  else none

/-- `urllib.parse.unquote` on ASCII percent-encodings (the multibyte
UTF-8 case is never exercised here). -/
def pyUnquote (s : Str) : Str :=
  match s with
  | '%' :: a :: b :: t =>
      match hexVal a, hexVal b with
      | some x, some y => Char.ofNat (16 * x + y) :: pyUnquote t
      | _, _ => '%' :: pyUnquote (a :: b :: t)
  | c :: t => c :: pyUnquote t
  | [] => []
termination_by s.length
decreasing_by all_goals simp_arith

/-- `os.path.basename` (POSIX). -/
def pathBasename (p : Str) : Str :=
  match (splitChar '/' p).getLast? with
  | some b => b
  | none => p

/-- `os.path.splitext` / pathlib `stem`-`suffix` on a basename: split at
the last dot unless every character before it is a dot. -/
def splitExt (p : Str) : Str × Str :=
  let idxs := (List.range p.length).filter (fun i => p.get? i == some '.')
  match idxs.getLast? with
  | none => (p, [])
  | some i =>
      if (p.take i).all (fun c => c == '.') then (p, [])
      else (p.take i, p.drop i)

/-- Python `s.strip(chars)`. -/
def pyStripChars (chars s : Str) : Str :=
  ((s.dropWhile (fun c => chars.contains c)).reverse.dropWhile
    (fun c => chars.contains c)).reverse

/-- Index of the first occurrence of a substring. -/
def indexOfSub (needle : Str) : Str → Option Nat
  | [] => if needle.isEmpty then some 0 else none
  | c :: t =>
      if startsWith needle (c :: t) then some 0
      else (indexOfSub needle t).map (· + 1)

/-- `urlparse(url).path` for the absolute http(s) URLs handled here. -/
def urlPath (url : Str) : Str :=
  match indexOfSub (S "://") url with
  | some i =>
      let hostPath := url.drop (i + 3)
      match hostPath.findIdx? (fun c => c == '/') with
      | none => []
      | some j => (hostPath.drop j).takeWhile (fun c => c != '?' && c != '#')
  | none => url.takeWhile (fun c => c != '?' && c != '#')

/-- `RESOURCE_DIRS` (resource type -> directory). -/
def RESOURCE_DIRS : List (Str × Str) :=
  [ (S "image", S "images"),
    (S "script", S "scripts"),
    (S "stylesheet", S "stylesheets"),
    (S "font", S "fonts"),
    (S "media", S "media"),
    (S "document", S "html") ]

/-- `_BINARY_MIME_SNIPPETS`. -/
def BINARY_MIME_SNIPPETS : List Str :=
  [ S "application/pdf",
    S "application/zip",
    S "application/x-msdownload",
    S "application/vnd.microsoft.portable-executable",
    S "application/octet-stream" ]

/-- `_guess_ext` of resources.py. -/
def guess_ext (ct : Str) : Str :=
  let ct_low := strLower ct
  if occursIn (S "text/css") ct_low then S ".css"
  else if occursIn (S "javascript") ct_low then S ".js"
  else if startsWith (S "image/") ct_low then
    '.' :: splitHead ';' ((splitCharN '/' 1 ct_low).getD 1 [])
  else if startsWith (S "font/") ct_low then
    '.' :: splitHead ';' ((splitCharN '/' 1 ct_low).getD 1 [])
  else if occursIn (S "html") ct_low then S ".html"
  else if occursIn (S "pdf") ct_low then S ".pdf"
  else if occursIn (S "zip") ct_low then S ".zip"
  else if occursIn (S "exe") ct_low then S ".exe"
  else []

/-- `_FILENAME_RE`: `filename\*?=(?:UTF-8''|["'])?([^;"']+)`, case
insensitive. -/
def filenameRe : RePat :=
  { ci := true,
    pre := [.lit (S "filename"), .cls (fun c => c == '*') .opt, .lit (S "="),
            .alts [S "UTF-8" ++ [apos, apos], [ '"' ], [apos], []]],
    grp := [.cls (fun c => c != ';' && c != '"' && c != apos) .plus],
    post := [] }

/-- `_FILENAME_STAR_RE`: `filename\*\s*=\s*[^'"]+'[^']*'([^;]+)`, case
insensitive. -/
def filenameStarRe : RePat :=
  { ci := true,
    pre := [.lit (S "filename*"), .cls isSpaceCh .star, .lit (S "="),
            .cls isSpaceCh .star,
            .cls (fun c => c != apos && c != '"') .plus, .lit [apos],
            .cls (fun c => c != apos) .star, .lit [apos]],
    grp := [.cls (fun c => c != ';') .plus],
    post := [] }

/-- `_fname_from_cd` of resources.py. -/
def fname_from_cd (md5hex : Str → Str) (cd : Option Str) : Option Str :=
  match cd with
  | none => none
  | some c =>
      if c.isEmpty then none
      else
        match reSearch filenameStarRe c with
        | some enc =>
            let raw := pyUnquote enc
            let se := splitExt (pathBasename raw)
            some (safe_filename md5hex (if se.1.isEmpty then S "download" else se.1) se.2 raw)
        | none =>
            match reSearch filenameRe c with
            | some nm =>
                let raw_name := pyStripChars ['"', apos] nm
                let se := splitExt (pathBasename raw_name)
                some (safe_filename md5hex (if se.1.isEmpty then S "download" else se.1) se.2 raw_name)
            | none => none

/-- `_fname_from_url` of resources.py. -/
def fname_from_url (md5hex : Str → Str) (url : Str) (fallback_ext : Str) : Str :=
  let path := urlPath url
  let base := pathBasename path
  let se := splitExt (if base.isEmpty then S "index" else base)
  let ext := if se.2.isEmpty && !fallback_ext.isEmpty then fallback_ext else se.2
  safe_filename md5hex se.1 ext url

/-- `_looks_like_download` of resources.py. -/
def looks_like_download (ct : Str) (cd : Option Str) : Bool :=
  let cd_low := strLower (cd.getD [])
  if occursIn (S "attachment") cd_low || occursIn (S "filename=") cd_low then true
  else
    let ct_low := strLower ct
    BINARY_MIME_SNIPPETS.any (fun sn => occursIn sn ct_low)

/-- `_dedup` of resources.py over an explicit set of existing paths:
`stem_1`, `stem_2`, ... until a free name (the stem and suffix are
computed once from the original name, as in the Python loop; the
bounded search always finds a free name because the candidates are
pairwise distinct and the file table is finite). -/
def dedup (fs : List Str) (dir fname : Str) : Str :=
  let full := dir ++ '/' :: fname
  if !fs.contains full then full
  else
    let se := splitExt fname
    let cand := fun (k : Nat) => dir ++ '/' :: se.1 ++ '_' :: natToStr (k + 1) ++ se.2
    match ((List.range (fs.length + 1)).map cand).find? (fun c => !fs.contains c) with
    | some c => c
    | none => cand (fs.length + 1)

/-- `os.path.relpath(fpath, out_dir)` for the paths built here. -/
def relPath (fpath out_dir : Str) : Str :=
  if startsWith (out_dir ++ [ '/' ]) fpath then fpath.drop (out_dir.length + 1) else fpath

/-- The capture-side state mutated by `handle_response`. -/
structure ResState where
  url_map : List (Str × Str)
  resp_hdrs : List (Str × (Nat × List (Str × Str)))
  downloads : Nat
  warnings : Nat
  errors : Nat
  fs : List Str

/-- The response fed to `handle_response`. -/
structure RespInput where
  url : Str
  status : Nat
  headers : List (Str × Str)
  resource_type : Str

/-- Outcome of `await response.body()`: bytes (possibly empty) or a
raised playwright `Error` with its message. -/
inductive BodyResult
  | bytes (nonempty : Bool)
  | raised (msg : Str)

/-- `handle_response` of resources.py.  `body` is the driver body
retrieval outcome, `writeOk` whether `fpath.write_bytes` succeeds
(false models the `OSError`), `fallbackOk` the result of the
HTTP-replay `_stream_fetch`.  Returns the new state and whether body
bytes were written for this URL. -/
def handle_response (md5hex : Str → Str) (resp : RespInput) (out_dir : Str)
    (body : BodyResult) (writeOk fallbackOk : Bool) (st : ResState) :
    ResState × Bool :=
  if (dictGet? st.url_map resp.url).isSome then (st, false)
  else if !([S "document", S "stylesheet", S "script", S "image",
             S "font", S "media", S "xhr", S "fetch", S "other"].contains
              resp.resource_type) then (st, false)
  else
    let st1 := { st with resp_hdrs := dictSet st.resp_hdrs resp.url (resp.status, resp.headers) }
    if 300 ≤ resp.status && resp.status < 400 then (st1, false)
    else
      let ct := (dictGet? resp.headers (S "content-type")).getD []
      let cd := dictGet? resp.headers (S "content-disposition")
      let cdv := cd.getD []
      let ext := if (guess_ext ct).isEmpty then (splitExt (pathBasename (urlPath resp.url))).2
                 else guess_ext ct
      let fname := match fname_from_cd md5hex (some cdv) with
                   | some f => f
                   | none => fname_from_url md5hex resp.url ext
      let is_download := looks_like_download ct (some cdv)
      let dirpath0 := if is_download then out_dir ++ S "/downloads"
                      else out_dir ++ '/' :: (dictGet? RESOURCE_DIRS resp.resource_type).getD (S "other")
      let dirpath := if 200 < (pathBasename dirpath0).length then
          (dirpath0.take (dirpath0.length - (pathBasename dirpath0).length))
            ++ (pathBasename dirpath0).take 200 ++ '_' :: (md5hex dirpath0).take 8
        else dirpath0
      let fpath := dedup st1.fs dirpath fname
      let st2 := { st1 with url_map := dictSet st1.url_map resp.url (relPath fpath out_dir) }
      let onFallback : ResState × Bool :=
        if fallbackOk then
          ({ st2 with downloads := st2.downloads + (if is_download then 1 else 0),
                      fs := fpath :: st2.fs }, true)
        else ({ st2 with errors := st2.errors + 1 }, false)
      match body with
      | .bytes nonempty =>
          if !nonempty then onFallback
          else if writeOk then
            ({ st2 with downloads := st2.downloads + (if is_download then 1 else 0),
                        fs := fpath :: st2.fs }, true)
          else ({ st2 with warnings := st2.warnings + 1 }, false)
      | .raised msg =>
          if occursIn (S "Network.getResponseBody") msg || occursIn (S "empty") msg then
            onFallback
          else ({ st2 with errors := st2.errors + 1 }, false)

/-!
### Concrete inputs used by witnesses and counterexamples
-/

/-- A Windows desktop Chrome 131 UA. -/
def uaChromeWin : Str :=
  S "Mozilla/5.0 (Windows NT 10.0; Win64; x64) AppleWebKit/537.36 (KHTML, like Gecko) Chrome/131.0.0.0 Safari/537.36"

/-- An Android mobile Chrome 131 UA. -/
def uaChromeAndroid : Str :=
  S "Mozilla/5.0 (Linux; Android 10; K) AppleWebKit/537.36 (KHTML, like Gecko) Chrome/131.0.0.0 Mobile Safari/537.36"

/-- An Edge 89 UA; like every real Edge UA it also carries a
`Chrome/` token (here Chrome 89). -/
def uaEdge89 : Str :=
  S "Mozilla/5.0 (Windows NT 10.0; Win64; x64) AppleWebKit/537.36 (KHTML, like Gecko) Chrome/89.0.4389.90 Safari/537.36 Edg/89.0.774.57"

/-- A synthetic Edge UA carrying no `Chrome/` token. -/
def uaEdgeBare89 : Str := S "Mozilla/5.0 (Windows NT 10.0; Win64; x64) Edg/89.0.774.57"

/-- The same with Edge 90. -/
def uaEdgeBare90 : Str := S "Mozilla/5.0 (Windows NT 10.0; Win64; x64) Edg/90.0.818.39"

/-- A Firefox UA. -/
def uaFirefox : Str :=
  S "Mozilla/5.0 (X11; Linux x86_64; rv:109.0) Gecko/20100101 Firefox/115.0"

/-- A desktop Safari UA. -/
def uaSafari : Str :=
  S "Mozilla/5.0 (Macintosh; Intel Mac OS X 10_15_7) AppleWebKit/605.1.15 (KHTML, like Gecko) Version/16.5 Safari/605.1.15"

/-- The ua-parser OS family for the Windows/Android UAs above (a stand
in for the external `user_agent_parser` table). -/
def famWin : Str → Str := fun _ => S "Windows"

/-- A stand-in md5 hex digest (the external `hashlib.md5(..).hexdigest()`;
only its 32-character length matters to any statement). -/
def md5stub : Str → Str := fun _ => S "0123456789abcdef0123456789abcdef"

/-- The zone.tab rows for Germany (a country with two IANA zones). -/
def tabDE : ZoneTab := [(S "DE", [S "Europe/Berlin", S "Europe/Busingen"])]

/-- The gate configuration browser.py builds for `--country DE` plus a
fixed Windows Chrome UA (TimezoneGate enabled with the country,
GeolocationGate with the resolved coordinates). -/
def cfgDE : GateConfig :=
  { entries :=
      [ (S "GeolocationGate",
          { geolocation := some { latitude := 52, longitude := 13, accuracy := 150 } }),
        (S "TimezoneGate", { country := some (S "DE") }),
        (S "UserAgentGate", { user_agent := some uaChromeWin }) ],
    gates_enabled :=
      [ (S "GeolocationGate", true), (S "TimezoneGate", true), (S "UserAgentGate", true) ],
    browser_engine := none }

/-- The unit square as an abstract shapely polygon. -/
def squarePoly : Polygon :=
  { minx := 0, miny := 0, maxx := 1, maxy := 1,
    containsQ := fun x y => decide (0 ≤ x) && decide (x ≤ 1) && decide (0 ≤ y) && decide (y ≤ 1),
    area := 1 }

/-- A one-row country table for the witness of claim C5. -/
def geoTableSq : List (Str × CountryGeo) :=
  [(S "SQ", { latitude := 0, longitude := 0, accuracy := 100, polygon_wkt := .poly squarePoly })]

/-- A preloaded template cache: `t.js` holds the single placeholder
`__A__`. -/
def cacheT : Cache := [(S "t.js", S "__A__")]

/-- A variable map whose first value contains the second entry's
placeholder. -/
def varsAB : List (Str × TVal) := [(S "A", .s (S "__B__")), (S "B", .s (S "x"))]

/-- A stylesheet response whose body will turn out unavailable. -/
def respCss : RespInput :=
  { url := S "https://a.example/style.css", status := 200,
    headers := [(S "content-type", S "text/css")],
    resource_type := S "stylesheet" }

/-- The empty capture state. -/
def st0 : ResState :=
  { url_map := [], resp_hdrs := [], downloads := 0, warnings := 0, errors := 0, fs := [] }

/-- A random stream whose draws all lie in the unit interval (what
`random.random()` guarantees). -/
def validRngQ (r : RngQ) : Prop := ∀ q ∈ r, 0 ≤ q ∧ q ≤ 1

/-- The driver body failure playwright raises when the renderer has
dropped the response (resources.py matches on this message). -/
def bodyGone : BodyResult :=
  .raised (S "Protocol error (Network.getResponseBody): No resource with given identifier found")

theorem sanity_lower : strLower (S "AbC") = S "abc" := by decide

theorem sanity_search :
    reSearch { pre := [.lit (S "chrome/")], grp := [dCls .plus], post := [] }
      (S "xx chrome/124.0 safari") = some (S "124") := by decide

theorem sanity_send_ch : send_ch uaChromeWin = true := by decide

theorem sanity_parse :
    parse_chromium_ua uaEdge89 = some (S "Microsoft Edge", S "89.0.774.57") := by decide

/-!
## Helper lemmas
-/

theorem sendChLoop_eq (l : List (RePat × Nat)) (ua : Str) :
    sendChLoop l ua =
      match l.findSome? (fun pf => (reSearch pf.1 ua).map (fun v => (digitsToNat v, pf.2))) with
      | some vf => decide (vf.1 ≥ vf.2)
      | none => false := by
  induction l with
  | nil => rfl
  | cons pf rest ih =>
      simp only [sendChLoop, List.findSome?_cons]
      cases h : reSearch pf.1 ua with
      | some v => simp [h]
      | none => simp [h, ih]

/-!
## Claim C3
-/

/-- C3: the claim reads `send_ch` as deciding by the UA's own brand
floor (Edge ≥ 90 for an Edge UA) - but the source tries `chrome/(\d+)`
first, and a real Edge 89 UA carries `Chrome/89`, so `send_ch` returns
true where the per-brand reading demands false. -/
theorem c3_counterexample :
    send_ch uaEdge89 = true ∧ sendChSpec uaEdge89 = false := by
  refine ⟨by decide, by decide⟩

/-- C3 (amended): `send_ch` excludes Firefox always; otherwise the
ordered pattern table decides by the FIRST matching pattern's floor
(`chrome/` before `edg/`), so an Edge UA that also carries a Chrome
token at or above 89 yields true even below Edge 90; an Edge UA without
a Chrome token is held to the 90 floor; a plain Safari UA matches no
pattern and yields false. -/
theorem c3_amended :
    (∀ ua, occursIn (S "firefox") (strLower ua) = true → send_ch ua = false) ∧
    (∀ ua, send_ch ua =
      (if sendChExcluded (strLower ua) then false
       else
        match CH_BROWSERS.findSome?
            (fun pf => (reSearch pf.1 (strLower ua)).map (fun v => (digitsToNat v, pf.2))) with
        | some vf => decide (vf.1 ≥ vf.2)
        | none => false)) ∧
    send_ch uaEdge89 = true ∧ send_ch uaEdgeBare89 = false ∧
    send_ch uaEdgeBare90 = true ∧ send_ch uaSafari = false := by
  refine ⟨?_, ?_, by decide, by decide, by decide, by decide⟩
  · intro ua h
    simp only [send_ch, sendChExcluded, h, Bool.true_or, if_true]
  · intro ua
    simp only [send_ch]
    rw [sendChLoop_eq]

/-- C3 witness: the amended theorem applied to the Firefox UA. -/
theorem c3_amended_witness :
    occursIn (S "firefox") (strLower uaFirefox) = true ∧ send_ch uaFirefox = false :=
  ⟨by decide, c3_amended.1 uaFirefox (by decide)⟩

/-!
## Claim C2
-/

/-- C2: the claim says `get_headers` emits `sec-ch-ua-mobile: ?1` for a
UA that signals mobile and quotes the UA's platform - but the source
hard-codes `"?0"` and `'"Windows"'`: on an Android mobile Chrome UA the
static map still carries `?0` and a quoted Windows platform. -/
theorem c2_counterexample :
    occursIn (S "mobile") (strLower uaChromeAndroid) = true ∧
    send_ch uaChromeAndroid = true ∧
    (UserAgentGate.get_headers (some uaChromeAndroid) [0, 0]).map
      (fun hr => (dictGet? hr.1 (S "sec-ch-ua-mobile"), dictGet? hr.1 (S "sec-ch-ua-platform")))
      = .ok (some (S "?0"), some (S "\"Windows\"")) :=
  ⟨by decide, by decide, by rfl⟩

/-- C2 (amended): when `supportsClientHints` holds, the static map is
exactly `user-agent`, `sec-ch-ua` (GREASE list), `sec-ch-ua-mobile`
always `"?0"` and `sec-ch-ua-platform` always the quoted literal
`Windows`, whatever the UA's mobile signal or platform; a UA whose
brand cannot be parsed propagates the `ValueError` instead. -/
theorem c2_amended (ua : Str) (rng : Rng) (h : send_ch ua = true) :
    (UserAgentGate.get_headers (some ua) rng).map
      (fun hr =>
        (dictGet? hr.1 (S "user-agent"), dictGet? hr.1 (S "sec-ch-ua-mobile"),
         dictGet? hr.1 (S "sec-ch-ua-platform"), (dictGet? hr.1 (S "sec-ch-ua")).isSome,
         hr.1.length))
      = (generate_sec_ch_ua ua rng).map
          (fun _ => (some ua, some (S "?0"), some (S "\"Windows\""), true, 4)) := by
  have hne : ua ≠ [] := by
    intro he
    rw [he] at h
    exact absurd h (by decide)
  have hie : ua.isEmpty = false := by
    cases ua with
    | nil => exact absurd rfl hne
    | cons a t => rfl
  unfold UserAgentGate.get_headers
  simp only [hie, Bool.false_eq_true, if_false, h, if_true]
  cases hg : generate_sec_ch_ua ua rng with
  | ok sr => rfl
  | error e => rfl

/-- C2 witness: the amended theorem applied to the Windows Chrome UA. -/
theorem c2_amended_witness :
    send_ch uaChromeWin = true ∧
    (UserAgentGate.get_headers (some uaChromeWin) [0, 0]).map
      (fun hr =>
        (dictGet? hr.1 (S "user-agent"), dictGet? hr.1 (S "sec-ch-ua-mobile"),
         dictGet? hr.1 (S "sec-ch-ua-platform"), (dictGet? hr.1 (S "sec-ch-ua")).isSome,
         hr.1.length))
      = (generate_sec_ch_ua uaChromeWin [0, 0]).map
          (fun _ => (some uaChromeWin, some (S "?0"), some (S "\"Windows\""), true, 4)) :=
  ⟨by decide, c2_amended uaChromeWin [0, 0] (by decide)⟩

/-!
## Claim C4
-/

/-- C4: when `supportsClientHints(ua)` is false, the static headers
carry no `sec-ch` key, `handle` registers no Accept-CH tracker (so the
memo, starting empty, stays empty over every response event), and
`inject_headers` on the empty memo returns the empty map for every
request. -/
theorem c4 (ua : Str) (h : send_ch ua = false) :
    (∀ rng hr, UserAgentGate.get_headers (some ua) rng = .ok hr →
        ∀ kv ∈ hr.1, startsWith (S "sec-ch") kv.1 = false) ∧
    UserAgentGate.handle_registers (some ua) = false ∧
    (∀ events, UserAgentGate.sessionMemo (UserAgentGate.handle_registers (some ua)) [] events = []) ∧
    (∀ selfUa fam url, UserAgentGate.inject_headers [] selfUa fam url = .ok []) := by
  have hreg : UserAgentGate.handle_registers (some ua) = false := by
    simp [UserAgentGate.handle_registers, h]
  refine ⟨?_, hreg, ?_, ?_⟩
  · intro rng hr heq kv hkv
    unfold UserAgentGate.get_headers at heq
    by_cases hie : ua.isEmpty
    · simp only [hie, if_true] at heq
      cases heq
      simp at hkv
    · simp only [hie, Bool.false_eq_true, if_false, h, if_true] at heq
      cases heq
      simp only [List.mem_singleton] at hkv
      subst hkv
      show startsWith (S "sec-ch") (S "user-agent") = false
      decide
  · intro events
    simp [UserAgentGate.sessionMemo, hreg]
  · intro selfUa fam url
    rfl

/-- C4 witness: a Firefox session - no tracker, empty memo after an
Accept-CH response, empty injection. -/
theorem c4_witness :
    send_ch uaFirefox = false ∧
    UserAgentGate.sessionMemo (UserAgentGate.handle_registers (some uaFirefox)) []
      [(S "https://x.example/a", some (S "sec-ch-ua-arch"))] = [] ∧
    UserAgentGate.inject_headers [] (some uaFirefox) famWin (S "https://x.example/b") = .ok [] :=
  ⟨by decide, (c4 uaFirefox (by decide)).2.2.1 _, (c4 uaFirefox (by decide)).2.2.2 _ _ _⟩

/-!
## Claim C10
-/

/-- C10: `_accept_ch_by_origin` is a class attribute - one dict per
process, shared by every gate instance.  With the shared memo empty,
any instance injects nothing; after ONE instance's tracker (registered
while its browser context was active) memoizes an `Accept-CH: Sec-CH-UA-Arch`
response from an origin, a request from ANY instance to that origin now
receives the arch hint - per-session state is not isolated. -/
theorem c10 (uaA uaB urlR urlQ ach : Str) (fam : Str → Str)
    (hreg : UserAgentGate.handle_registers (some uaA) = true)
    (horig : origin_of urlQ = origin_of urlR)
    (hach : (splitChar ',' ach).map (fun hh => strLower (pyStrip hh)) = [S "sec-ch-ua-arch"])
    (hne : ach.isEmpty = false) :
    UserAgentGate.inject_headers [] (some uaB) fam urlQ = .ok [] ∧
    UserAgentGate.sessionMemo (UserAgentGate.handle_registers (some uaA)) [] [(urlR, some ach)]
      = [(origin_of urlR, [S "sec-ch-ua-arch"])] ∧
    UserAgentGate.inject_headers [(origin_of urlR, [S "sec-ch-ua-arch"])] (some uaB) fam urlQ
      = .ok [(S "sec-ch-ua-arch", quoteStr (extract_high_entropy_hints fam uaB).architecture)] := by
  refine ⟨rfl, ?_, ?_⟩
  · simp only [UserAgentGate.sessionMemo, hreg, if_true, List.foldl_cons, List.foldl_nil,
      track, hne, Bool.false_eq_true, if_false, hach]
    simp [dictSet, dictGet?]
  · have hget : dictGet? [(origin_of urlR, [S "sec-ch-ua-arch"])] (origin_of urlR)
        = some [S "sec-ch-ua-arch"] := by
      simp [dictGet?, List.find?]
    simp only [UserAgentGate.inject_headers, horig, hget, Option.getD_some]
    rfl

/-- C10 witness: two Windows Chrome instances, an `Accept-CH` response
on one origin, a later request to the same origin. -/
theorem c10_witness :
    UserAgentGate.inject_headers [] (some uaChromeWin) famWin (S "https://o.example/other")
      = .ok [] ∧
    UserAgentGate.sessionMemo (UserAgentGate.handle_registers (some uaChromeWin)) []
      [(S "https://o.example/page", some (S "Sec-CH-UA-Arch"))]
      = [(origin_of (S "https://o.example/page"), [S "sec-ch-ua-arch"])] ∧
    UserAgentGate.inject_headers
      [(origin_of (S "https://o.example/page"), [S "sec-ch-ua-arch"])]
      (some uaChromeWin) famWin (S "https://o.example/other")
      = .ok [(S "sec-ch-ua-arch",
              quoteStr (extract_high_entropy_hints famWin uaChromeWin).architecture)] :=
  c10 uaChromeWin uaChromeWin (S "https://o.example/page") (S "https://o.example/other")
    (S "Sec-CH-UA-Arch") famWin (by decide) (by decide) (by decide) (by decide)

/-!
## Claim C1
-/

/-- C1: the timezone pipeline is incoherent.  (i) As wired,
`SpoofingManager()` iterates `ALL_GATES`, which does not register the
TimezoneGate: for the `--country DE` configuration the special first
pass finds nothing, no `__TIMEZONE__` enters the merged vars, the
UserAgent gate receives `UTC`, and the driver timezone
(`_timezone_from_gate`, reading the never-populated
`GeolocationGate.timezone_id`) is `UTC`.  (ii) Even with the
TimezoneGate registered as the configuration presumes, the merge loop
calls its `get_js_template_vars` a second time with fresh random draws:
draws 0 then 1 hand `Europe/Berlin` to the UserAgent/Language gates but
write `Europe/Busingen` into the merged `__TIMEZONE__`. -/
theorem c1_code_bug :
    (apply_js_patches (spoofingManagerGates none) tabDE famWin cfgDE []).map
        (fun r => (dictGet? r.mergedVars (S "__TIMEZONE__"),
                   dictGet? r.mergedVars (S "__TZ__"), r.selectedTimezone))
      = some (none, some (.s (S "UTC")), S "UTC") ∧
    timezone_from_gate cfgDE = S "UTC" ∧
    (apply_js_patches (ALL_GATES ++ [Gate.timezoneG]) tabDE famWin cfgDE [0, 1]).map
        (fun r => (dictGet? r.mergedVars (S "__TIMEZONE__"),
                   dictGet? r.mergedVars (S "__TZ__"), r.selectedTimezone))
      = some (some (.s (S "Europe/Busingen")), some (.s (S "Europe/Berlin")),
              S "Europe/Berlin") := by
  refine ⟨by rfl, by rfl, by rfl⟩

/-!
## Claim C6
-/

theorem getJsTemplateVars_rng_invariant (g : Gate) (hg : g ≠ Gate.timezoneG)
    (hw : g ≠ Gate.webglG) (tab : ZoneTab) (fam : Str → Str) (o : Opts) (rng : Rng) :
    g.getJsTemplateVars tab fam o rng
      = (g.getJsTemplateVars tab fam o []).map (fun vr => (vr.1, rng)) := by
  cases g with
  | timezoneG => exact absurd rfl hg
  | webglG => exact absurd rfl hw
  | geolocationG => rfl
  | referrerG => rfl
  | userAgentG => rfl
  | languageG => rfl

theorem mergeTemplateVars_det (gates : List Gate) (tab : ZoneTab) (fam : Str → Str)
    (cfg : GateConfig) (sel : Str) (acc : List (Str × TVal)) (rng1 rng2 : Rng)
    (h : ∀ g ∈ gates, g ≠ Gate.timezoneG ∧ g ≠ Gate.webglG) :
    (mergeTemplateVars gates tab fam cfg sel acc rng1).map (fun vr => vr.1)
      = (mergeTemplateVars gates tab fam cfg sel acc rng2).map (fun vr => vr.1) := by
  induction gates generalizing acc rng1 rng2 with
  | nil => rfl
  | cons g gs ih =>
      have hg := h g (List.mem_cons_self _ _)
      have hrest : ∀ g' ∈ gs, g' ≠ Gate.timezoneG ∧ g' ≠ Gate.webglG :=
        fun g' hm => h g' (List.mem_cons_of_mem _ hm)
      simp only [mergeTemplateVars]
      by_cases he : is_gate_enabled g cfg = true
      · simp only [he, if_true]
        rw [getJsTemplateVars_rng_invariant g hg.1 hg.2 tab fam _ rng1,
            getJsTemplateVars_rng_invariant g hg.1 hg.2 tab fam _ rng2]
        cases hv : Gate.getJsTemplateVars g tab fam
            (if (g.name == S "UserAgentGate" || g.name == S "LanguageGate") = true then
              { gateArgs g cfg with timezone_id := some sel } else gateArgs g cfg) [] with
        | none => rfl
        | some vr =>
            simp only [Option.map_some']
            exact ih _ _ _ hrest
      · simp only [he, Bool.false_eq_true, if_false]
        exact ih _ _ _ hrest

/-- C6: running the orchestrator's JS-patch phase twice on the same
gate configuration yields the same merged template vars both times -
the registered gates (`ALL_GATES`) consume no randomness, and the
special TimezoneGate pass finds no TimezoneGate, so the selected
timezone is always `UTC` and the merge is a deterministic function of
the configuration (whatever country, even one mapping to several IANA
zones, appears in it). -/
theorem c6 (tab : ZoneTab) (fam : Str → Str) (cfg : GateConfig) (rng1 rng2 : Rng) :
    (apply_js_patches (spoofingManagerGates none) tab fam cfg rng1).map
        (fun r => (r.mergedVars, r.selectedTimezone))
      = (apply_js_patches (spoofingManagerGates none) tab fam cfg rng2).map
          (fun r => (r.mergedVars, r.selectedTimezone)) := by
  have hcol : ∀ rng, collectSelectedTimezone ALL_GATES tab fam cfg rng = some (S "UTC", rng) := by
    intro rng
    simp only [collectSelectedTimezone, ALL_GATES,
      show (Gate.name Gate.geolocationG == S "TimezoneGate") = false from rfl,
      show (Gate.name Gate.referrerG == S "TimezoneGate") = false from rfl,
      show (Gate.name Gate.userAgentG == S "TimezoneGate") = false from rfl,
      show (Gate.name Gate.languageG == S "TimezoneGate") = false from rfl,
      Bool.and_false, Bool.false_eq_true, if_false]
  have hdet := mergeTemplateVars_det ALL_GATES tab fam cfg (S "UTC") [] rng1 rng2 (by decide)
  show (apply_js_patches ALL_GATES tab fam cfg rng1).map _
      = (apply_js_patches ALL_GATES tab fam cfg rng2).map _
  simp only [apply_js_patches, hcol]
  cases h1 : mergeTemplateVars ALL_GATES tab fam cfg (S "UTC") [] rng1 with
  | none =>
      rw [h1] at hdet
      cases h2 : mergeTemplateVars ALL_GATES tab fam cfg (S "UTC") [] rng2 with
      | none => rfl
      | some mr2 => rw [h2] at hdet; exact absurd hdet (by simp)
  | some mr1 =>
      rw [h1] at hdet
      cases h2 : mergeTemplateVars ALL_GATES tab fam cfg (S "UTC") [] rng2 with
      | none => rw [h2] at hdet; exact absurd hdet (by simp)
      | some mr2 =>
          rw [h2] at hdet
          simp only [Option.map_some'] at hdet ⊢
          rw [Option.some.inj hdet]

/-- C6 witness: the idempotence instance on the DE configuration with
two different random streams. -/
theorem c6_witness :
    (apply_js_patches (spoofingManagerGates none) tabDE famWin cfgDE []).map
        (fun r => (r.mergedVars, r.selectedTimezone))
      = (apply_js_patches (spoofingManagerGates none) tabDE famWin cfgDE [0, 1]).map
          (fun r => (r.mergedVars, r.selectedTimezone)) :=
  c6 tabDE famWin cfgDE [] [0, 1]

/-!
## Claim C5
-/

theorem nextQ_valid (rng : RngQ) (h : validRngQ rng) :
    0 ≤ (nextQ rng).1 ∧ (nextQ rng).1 ≤ 1 ∧ validRngQ (nextQ rng).2 := by
  cases rng with
  | nil =>
      refine ⟨le_refl 0, zero_le_one, ?_⟩
      intro q hq
      simp [nextQ] at hq
  | cons r t =>
      have hr := h r (List.mem_cons_self r t)
      refine ⟨hr.1, hr.2, ?_⟩
      intro q hq
      exact h q (List.mem_cons_of_mem r hq)

theorem rpp_contains (p : Polygon) (n : Nat) (rng : RngQ) (pt : Rat × Rat) (rng' : RngQ)
    (h : random_point_polygon p n rng = (some pt, rng')) :
    p.containsQ pt.1 pt.2 = true := by
  induction n generalizing rng with
  | zero => simp [random_point_polygon] at h
  | succ n ih =>
      rw [random_point_polygon] at h
      split at h
      · next hc =>
          have hpt := congrArg Prod.fst h
          simp only at hpt
          cases hpt
          exact hc
      · next hc => exact ih _ h

theorem rpp_valid (p : Polygon) (n : Nat) (rng : RngQ) (h : validRngQ rng) :
    validRngQ (random_point_polygon p n rng).2 := by
  induction n generalizing rng with
  | zero => exact h
  | succ n ih =>
      rw [random_point_polygon]
      have h1 := (nextQ_valid rng h).2.2
      have h2 := (nextQ_valid _ h1).2.2
      split
      · exact h2
      · exact ih _ h2

theorem rpm_contains (ps : List Polygon) (n : Nat) (rng : RngQ) (pt : Rat × Rat)
    (rng' : RngQ) (h : random_point_multipolygon ps n rng = (some pt, rng')) :
    ps.any (fun p => p.containsQ pt.1 pt.2) = true := by
  induction n generalizing rng with
  | zero => simp [random_point_multipolygon] at h
  | succ n ih =>
      rw [random_point_multipolygon] at h
      split at h
      · simp at h
      · next poly hmem =>
          split at h
          · next pt0 rng0 heq =>
              have hpt := congrArg Prod.fst h
              simp only at hpt
              cases hpt
              exact List.any_eq_true.mpr ⟨poly, List.get?_mem hmem,
                rpp_contains poly 10 _ _ _ heq⟩
          · next rng0 heq => exact ih _ h

theorem rpm_valid (ps : List Polygon) (n : Nat) (rng : RngQ) (h : validRngQ rng) :
    validRngQ (random_point_multipolygon ps n rng).2 := by
  induction n generalizing rng with
  | zero => exact h
  | succ n ih =>
      rw [random_point_multipolygon]
      have h1 := (nextQ_valid rng h).2.2
      split
      · exact h1
      · next poly hmem =>
          split
          · next pt0 rng0 heq =>
              have hval := rpp_valid poly 10 (nextQ rng).2 h1
              rw [heq] at hval
              exact hval
          · next rng0 heq =>
              have hval := rpp_valid poly 10 (nextQ rng).2 h1
              rw [heq] at hval
              exact ih _ hval

theorem pyUniform_bounds (rng : RngQ) (h : validRngQ rng) :
    100 ≤ (pyUniform 100 200 rng).1 ∧ (pyUniform 100 200 rng).1 ≤ 200 := by
  have hu := nextQ_valid rng h
  constructor
  · show (100 : Rat) ≤ 100 + (200 - 100) * (nextQ rng).1
    nlinarith [hu.1]
  · show 100 + (200 - 100) * (nextQ rng).1 ≤ (200 : Rat)
    nlinarith [hu.1, hu.2.1]

theorem pyRound_bounds (x : Rat) (h1 : 100 ≤ x) (h2 : x ≤ 200) :
    100 ≤ pyRound x ∧ pyRound x ≤ 200 := by
  have hf1 : (100 : Int) ≤ ⌊x⌋ := Int.le_floor.mpr (by exact_mod_cast h1)
  have hf2 : ⌊x⌋ ≤ 200 := by
    have hm := Int.floor_le_floor h2
    simpa using hm
  have hfl : (⌊x⌋ : Rat) ≤ x := Int.floor_le x
  unfold pyRound
  split
  · exact ⟨hf1, hf2⟩
  · next hlt =>
      have hstep : ⌊x⌋ ≤ 199 := by
        by_contra hcon
        push_neg at hcon
        have hc2 : (200 : Rat) ≤ (⌊x⌋ : Rat) := by exact_mod_cast hcon
        have hfr : ¬ (x - ⌊x⌋ < 1/2) := hlt
        push_neg at hfr
        linarith
      split
      · omega
      · split
        · omega
        · omega

/-- C5: whenever `jitter_country_location` returns normally, the point
lies inside the country's (multi)polygon - the rejection loop only
returns points the `contains` test accepted - and, for draws in the
unit interval, the rounded accuracy lies in `[100, 200]`. -/
theorem c5 (table : List (Str × CountryGeo)) (cc : Str) (rng : RngQ)
    (geo : Geo) (rng' : RngQ) (hv : validRngQ rng)
    (h : jitter_country_location table cc rng = some (geo, rng')) :
    (∀ p, (dictGet? table cc).map (fun row => row.polygon_wkt) = some (.poly p) →
        p.containsQ geo.longitude geo.latitude = true) ∧
    (∀ ps, (dictGet? table cc).map (fun row => row.polygon_wkt) = some (.multi ps) →
        ps.any (fun p => p.containsQ geo.longitude geo.latitude) = true) ∧
    100 ≤ geo.accuracy ∧ geo.accuracy ≤ 200 := by
  unfold jitter_country_location at h
  split at h
  · simp at h
  · next row hrow =>
      rw [hrow]
      simp only [Option.map_some', Option.some.injEq]
      split at h
      · next p hg =>
          cases hs : random_point_polygon p 100 rng with
          | mk opt rng1 =>
              rw [hs] at h
              cases opt with
              | none => simp at h
              | some pt =>
                  simp only [Option.some.injEq, Prod.mk.injEq] at h
                  obtain ⟨hgeo, _⟩ := h
                  have hval : validRngQ rng1 := by
                    have hva := rpp_valid p 100 rng hv
                    rw [hs] at hva
                    exact hva
                  have hub := pyUniform_bounds rng1 hval
                  have hrb := pyRound_bounds _ hub.1 hub.2
                  refine ⟨?_, ?_, ?_, ?_⟩
                  · intro p' hp'
                    rw [hg] at hp'
                    cases hp'
                    rw [← hgeo]
                    exact rpp_contains p 100 rng pt rng1 hs
                  · intro ps hps
                    rw [hg] at hps
                    simp at hps
                  · rw [← hgeo]
                    show (100 : ℚ) ≤ ((pyRound (pyUniform 100 200 rng1).1 : Int) : ℚ)
                    exact_mod_cast hrb.1
                  · rw [← hgeo]
                    show ((pyRound (pyUniform 100 200 rng1).1 : Int) : ℚ) ≤ 200
                    exact_mod_cast hrb.2
      · next ps hg =>
          by_cases hz : List.foldl (fun x1 x2 => x1 + x2) 0 (List.map Polygon.area ps) = 0
          · rw [if_pos hz] at h
            simp at h
          · rw [if_neg hz] at h
            cases hs : random_point_multipolygon ps 100 rng with
            | mk opt rng1 =>
                rw [hs] at h
                cases opt with
                | none => simp at h
                | some pt =>
                    simp only [Option.some.injEq, Prod.mk.injEq] at h
                    obtain ⟨hgeo, _⟩ := h
                    have hval : validRngQ rng1 := by
                      have hva := rpm_valid ps 100 rng hv
                      rw [hs] at hva
                      exact hva
                    have hub := pyUniform_bounds rng1 hval
                    have hrb := pyRound_bounds _ hub.1 hub.2
                    refine ⟨?_, ?_, ?_, ?_⟩
                    · intro p' hp'
                      rw [hg] at hp'
                      simp at hp'
                    · intro ps' hps'
                      rw [hg] at hps'
                      cases hps'
                      rw [← hgeo]
                      exact rpm_contains ps 100 rng pt rng1 hs
                    · rw [← hgeo]
                      show (100 : ℚ) ≤ ((pyRound (pyUniform 100 200 rng1).1 : Int) : ℚ)
                      exact_mod_cast hrb.1
                    · rw [← hgeo]
                      show ((pyRound (pyUniform 100 200 rng1).1 : Int) : ℚ) ≤ 200
                      exact_mod_cast hrb.2
      · next hg =>
          simp at h

theorem rpp_succ_true (p : Polygon) (n : Nat) (rng : RngQ)
    (h : p.containsQ (pyUniform p.minx p.maxx rng).1
          (pyUniform p.miny p.maxy (pyUniform p.minx p.maxx rng).2).1 = true) :
    random_point_polygon p (n + 1) rng
      = (some ((pyUniform p.minx p.maxx rng).1,
               (pyUniform p.miny p.maxy (pyUniform p.minx p.maxx rng).2).1),
         (pyUniform p.miny p.maxy (pyUniform p.minx p.maxx rng).2).2) := by
  rw [random_point_polygon, if_pos h]

/-- C5 witness: the unit-square country with draws 1/2 everywhere; the
sampled point is (1/2, 1/2), inside the square, accuracy 150. -/
theorem c5_witness :
    jitter_country_location geoTableSq (S "SQ") [1/2, 1/2, 1/2]
      = some ({ latitude := 1/2, longitude := 1/2, accuracy := 150 }, []) ∧
    (100 ≤ ({ latitude := 1/2, longitude := 1/2, accuracy := 150 } : Geo).accuracy ∧
      ({ latitude := 1/2, longitude := 1/2, accuracy := 150 } : Geo).accuracy ≤ 200) := by
  have hv : validRngQ [1/2, 1/2, 1/2] := by
    intro q hq
    simp only [List.mem_cons, List.not_mem_nil, or_false] at hq
    rcases hq with rfl | rfl | rfl <;> norm_num
  have hx : pyUniform squarePoly.minx squarePoly.maxx [1/2, 1/2, 1/2] = (1/2, [1/2, 1/2]) := by
    show pyUniform 0 1 [1/2, 1/2, 1/2] = (1/2, [1/2, 1/2])
    unfold pyUniform nextQ
    norm_num
  have hy : pyUniform squarePoly.miny squarePoly.maxy [1/2, 1/2] = (1/2, [1/2]) := by
    show pyUniform 0 1 [1/2, 1/2] = (1/2, [1/2])
    unfold pyUniform nextQ
    norm_num
  have hc : squarePoly.containsQ (1/2) (1/2) = true := by
    show (decide ((0:ℚ) ≤ 1/2) && decide ((1:ℚ)/2 ≤ 1) && decide ((0:ℚ) ≤ 1/2)
          && decide ((1:ℚ)/2 ≤ 1)) = true
    simp only [Bool.and_eq_true, decide_eq_true_eq]
    norm_num
  have hrpp : random_point_polygon squarePoly 100 [1/2, 1/2, 1/2] = (some (1/2, 1/2), [1/2]) := by
    have h99 := rpp_succ_true squarePoly 99 [1/2, 1/2, 1/2]
    rw [hx, hy] at h99
    rw [show (100 : Nat) = 99 + 1 from rfl]
    exact h99 hc
  have hu3 : pyUniform 100 200 [1/2] = (150, []) := by
    unfold pyUniform nextQ
    norm_num
  have hr150 : pyRound 150 = 150 := by
    unfold pyRound
    norm_num
  have hj : jitter_country_location geoTableSq (S "SQ") [1/2, 1/2, 1/2]
      = some ({ latitude := 1/2, longitude := 1/2, accuracy := 150 }, []) := by
    have hrow : dictGet? geoTableSq (S "SQ")
        = some { latitude := 0, longitude := 0, accuracy := 100,
                 polygon_wkt := .poly squarePoly } := rfl
    simp only [jitter_country_location, hrow, hrpp, hu3, hr150]
    norm_num
  refine ⟨hj, ?_⟩
  have := (c5 geoTableSq (S "SQ") [1/2, 1/2, 1/2]
    { latitude := 1/2, longitude := 1/2, accuracy := 150 } [] hv hj).2.2
  exact this

/-!
## Claim C8
-/

theorem safe_filename_eq (md5hex : Str → Str) (stem ext salt : Str) :
    safe_filename md5hex stem ext salt =
      (if ((240 : Int) - ext.length - ((md5hex salt).take 8).length - 1 < 8) then
        (md5hex salt).take 8 ++ ext
       else
        (if ((stem.length : Int) > 240 - ext.length - ((md5hex salt).take 8).length - 1) then
           stem.take ((240 - (ext.length : Int) - ((md5hex salt).take 8).length - 1).toNat)
         else stem) ++ '_' :: (md5hex salt).take 8 ++ ext) := rfl

/-- C8: the claim says an empty stem falls back to the hash alone - but
the fallback branch fires only when the extension eats the whole budget;
an empty stem still goes through the main branch and yields a leading
underscore before the hash. -/
theorem c8_counterexample :
    safe_filename md5stub (S "") (S ".css") (S "salt") = S "_01234567.css" ∧
    S "_01234567.css" ≠ S "01234567.css" := by
  refine ⟨by decide, by decide⟩

/-- C8 (amended): for extensions of length at most 223 the result is
`stem(trimmed to 231-len(ext)) + '_' + first-8-hex(md5(salt)) + ext`
and its total length is at most 240; only when the extension exceeds
223 characters is the stem dropped, giving `hash8 + ext` (which may
itself exceed 240).  An empty stem yields `'_' + hash8 + ext`, not the
bare hash. -/
theorem c8_amended (md5hex : Str → Str) (h32 : ∀ s, (md5hex s).length = 32)
    (stem ext salt : Str) :
    (ext.length ≤ 223 →
        safe_filename md5hex stem ext salt
          = stem.take (231 - ext.length) ++ '_' :: (md5hex salt).take 8 ++ ext ∧
        (safe_filename md5hex stem ext salt).length ≤ 240) ∧
    (223 < ext.length →
        safe_filename md5hex stem ext salt = (md5hex salt).take 8 ++ ext) := by
  have hh : ((md5hex salt).take 8).length = 8 := by
    simp [List.length_take, h32]
  rw [safe_filename_eq]
  constructor
  · intro hle
    have hni : ¬((240 : Int) - ext.length - ((md5hex salt).take 8).length - 1 < 8) := by
      rw [hh]; omega
    rw [if_neg hni]
    have hksz : ((240 - (ext.length : Int) - ((md5hex salt).take 8).length - 1).toNat)
        = 231 - ext.length := by
      rw [hh]; omega
    have heq : (if ((stem.length : Int) > 240 - ext.length - ((md5hex salt).take 8).length - 1)
          then stem.take ((240 - (ext.length : Int) - ((md5hex salt).take 8).length - 1).toNat)
          else stem) = stem.take (231 - ext.length) := by
      by_cases hst : ((stem.length : Int) > 240 - ext.length - ((md5hex salt).take 8).length - 1)
      · rw [if_pos hst, hksz]
      · rw [if_neg hst]
        have hlen : stem.length ≤ 231 - ext.length := by
          rw [hh] at hst
          push_neg at hst
          omega
        exact (List.take_of_length_le hlen).symm
    rw [heq]
    refine ⟨rfl, ?_⟩
    simp only [List.length_append, List.length_cons, List.length_take, hh]
    omega
  · intro hgt
    have hpi : ((240 : Int) - ext.length - ((md5hex salt).take 8).length - 1 < 8) := by
      rw [hh]; omega
    rw [if_pos hpi]

/-- C8 witness: the amended theorem applied to a short stem and
extension with the stand-in digest. -/
theorem c8_amended_witness :
    (S ".css").length ≤ 223 ∧
    safe_filename md5stub (S "style") (S ".css") (S "x")
      = (S "style").take (231 - (S ".css").length) ++ '_' :: (md5stub (S "x")).take 8 ++ S ".css" :=
  ⟨by decide,
   ((c8_amended md5stub (fun _ => rfl) (S "style") (S ".css") (S "x")).1 (by decide)).1⟩

/-!
## Claim C9
-/

theorem occursIn_nil_pat (s : Str) : occursIn [] s = true := by
  cases s <;> simp [occursIn, startsWith, List.isEmpty]

theorem substAll_nil (pat rep : Str) (hne : pat.isEmpty = false) :
    substAll pat rep [] = [] := by
  rw [substAll]
  simp [hne]

theorem substAll_pos (pat rep s : Str) (hne : pat.isEmpty = false)
    (h : startsWith pat s = true) :
    substAll pat rep s = rep ++ substAll pat rep (s.drop pat.length) := by
  cases s with
  | nil =>
      cases pat with
      | nil => simp [List.isEmpty] at hne
      | cons p pr => simp [startsWith] at h
  | cons c t =>
      rw [substAll]
      simp [hne, h]

theorem substAll_neg (pat rep : Str) (c : Char) (t : Str) (hne : pat.isEmpty = false)
    (h : startsWith pat (c :: t) = false) :
    substAll pat rep (c :: t) = c :: substAll pat rep t := by
  rw [substAll]
  simp [hne, h]

theorem startsWith_append_self (p b : Str) : startsWith p (p ++ b) = true := by
  induction p with
  | nil => rfl
  | cons a t ih => simp [startsWith, ih]

theorem substAll_of_not_occurs (pat rep s : Str) (h : occursIn pat s = false) :
    substAll pat rep s = s := by
  have hne : pat.isEmpty = false := by
    cases pat with
    | nil => rw [occursIn_nil_pat] at h; exact absurd h (by simp)
    | cons a b => rfl
  induction s with
  | nil => exact substAll_nil pat rep hne
  | cons c t ih =>
      have hh : startsWith pat (c :: t) = false ∧ occursIn pat t = false := by
        have h2 : (startsWith pat (c :: t) || occursIn pat t) = false := h
        exact ⟨by revert h2; cases startsWith pat (c :: t) <;> simp,
               by revert h2; cases occursIn pat t <;> simp⟩
      rw [substAll_neg pat rep c t hne hh.1, ih hh.2]

theorem substAll_append (pat rep a b : Str) (hne : pat ≠ [])
    (hpre : ∀ i, i < a.length → startsWith pat ((a ++ pat ++ b).drop i) = false) :
    substAll pat rep (a ++ pat ++ b) = a ++ rep ++ substAll pat rep b := by
  have hie : pat.isEmpty = false := by
    cases pat with
    | nil => exact absurd rfl hne
    | cons p pr => rfl
  induction a with
  | nil =>
      simp only [List.nil_append]
      rw [substAll_pos pat rep (pat ++ b) hie (startsWith_append_self pat b)]
      rw [show (pat ++ b).drop pat.length = b from List.drop_left pat b]
  | cons c a' ih =>
      have h0 : startsWith pat (c :: (a' ++ pat ++ b)) = false := by
        have := hpre 0 (by simp)
        simpa using this
      have hstep : substAll pat rep ((c :: a') ++ pat ++ b)
          = c :: substAll pat rep (a' ++ pat ++ b) := by
        exact substAll_neg pat rep c (a' ++ pat ++ b) hie h0
      rw [hstep, ih (fun i hi => by
        have := hpre (i + 1) (by simpa using Nat.succ_lt_succ hi)
        simpa using this)]
      simp

theorem renderTemplate_of_absent (template : Str) (vars : List (Str × TVal))
    (h : ∀ kv ∈ vars, occursIn (placeholderOf kv.1) template = false) :
    renderTemplate template vars = template := by
  induction vars with
  | nil => rfl
  | cons kv r ih =>
      show List.foldl _ _ _ = _
      rw [List.foldl_cons]
      have h1 : substAll (placeholderOf kv.1) (kv.2.toStr) template = template :=
        substAll_of_not_occurs _ _ _ (h kv (List.mem_cons_self _ _))
      show List.foldl _ (substAll (placeholderOf kv.1) (kv.2.toStr) template) r = _
      rw [h1]
      exact ih (fun kv' hm => h kv' (List.mem_cons_of_mem _ hm))

theorem find?_append_none {α : Type} (p : α → Bool) (l1 l2 : List α)
    (h : l1.find? p = none) : (l1 ++ l2).find? p = l2.find? p := by
  induction l1 with
  | nil => rfl
  | cons x r ih =>
      cases hp : p x with
      | true =>
          rw [List.find?_cons_of_pos _ hp] at h
          simp at h
      | false =>
          rw [List.find?_cons_of_neg _ (by simp [hp])] at h
          rw [List.cons_append, List.find?_cons_of_neg _ (by simp [hp])]
          exact ih h

theorem find?_map_set {α : Type} (d : List (Str × α)) (k : Str) (v : α)
    (h : (d.find? (fun kv => kv.1 == k)).isSome = true) :
    ((d.map (fun kv => if kv.1 == k then (k, v) else kv)).find?
        (fun kv => kv.1 == k)) = some (k, v) := by
  induction d with
  | nil => simp at h
  | cons kv r ih =>
      cases hk : (kv.1 == k) with
      | true =>
          rw [List.map_cons, if_pos hk]
          rw [List.find?_cons_of_pos _ (by simp)]
      | false =>
          rw [List.find?_cons_of_neg _ (by simp [hk])] at h
          rw [List.map_cons, if_neg (by simp [hk]), List.find?_cons_of_neg _ (by simp [hk])]
          exact ih h

theorem dictGet?_dictSet_self {α : Type} (d : List (Str × α)) (k : Str) (v : α) :
    dictGet? (dictSet d k v) k = some v := by
  unfold dictSet
  by_cases h : (List.find? (fun kv => kv.1 == k) d).isSome = true
  · rw [if_pos h]
    unfold dictGet?
    rw [find?_map_set d k v h]
    rfl
  · rw [if_neg h]
    unfold dictGet?
    have hnone : List.find? (fun kv => kv.1 == k) d = none := by
      cases hf : List.find? (fun kv => kv.1 == k) d with
      | none => rfl
      | some x => rw [hf] at h; simp at h
    rw [find?_append_none _ d _ hnone]
    simp [List.find?]

theorem simSubst_nil (vars : List (Str × TVal)) : simSubst vars [] = [] := by
  rw [simSubst]

theorem simSubst_found (vars : List (Str × TVal)) (s : Str) (kv : Str × TVal)
    (hs : s ≠ [])
    (h : vars.find? (fun kv => startsWith (placeholderOf kv.1) s) = some kv) :
    simSubst vars s = kv.2.toStr ++ simSubst vars (s.drop (placeholderOf kv.1).length) := by
  cases s with
  | nil => exact absurd rfl hs
  | cons c t =>
      rw [simSubst]
      split
      · next kv2 hfind =>
          rw [h] at hfind
          injection hfind with hkv
          rw [← hkv]
      · next hfind =>
          rw [h] at hfind
          simp at hfind

/-- C9: the claim says values are inserted verbatim and
placeholder-shaped text inside an inserted value is not itself
substituted - but the loader applies one sequential `str.replace` per
variable, so a later entry rewrites placeholder text that an earlier
value inserted: with template `__A__` and map `A -> __B__, B -> x` the
render yields `x`, not the simultaneous-substitution answer `__B__`. -/
theorem c9_counterexample :
    load_and_render_template (fun _ => none) cacheT (S "t.js") varsAB = .ok (S "x", cacheT) ∧
    simSubst varsAB (S "__A__") = S "__B__" ∧
    (S "x" : Str) ≠ S "__B__" := by
  have hs1 : substAll (S "__A__") (S "__B__") (S "__A__") = S "__B__" := by
    rw [substAll_pos _ _ _ (by decide) (by decide)]
    rw [show (S "__A__").drop (S "__A__").length = ([] : Str) from by decide]
    rw [substAll_nil _ _ (by decide)]
    decide
  have hs2 : substAll (S "__B__") (S "x") (S "__B__") = S "x" := by
    rw [substAll_pos _ _ _ (by decide) (by decide)]
    rw [show (S "__B__").drop (S "__B__").length = ([] : Str) from by decide]
    rw [substAll_nil _ _ (by decide)]
    decide
  have hrender : renderTemplate (S "__A__") varsAB = S "x" := by
    show List.foldl _ _ _ = _
    rw [show varsAB = [(S "A", TVal.s (S "__B__")), (S "B", TVal.s (S "x"))] from rfl]
    rw [List.foldl_cons, List.foldl_cons, List.foldl_nil]
    rw [show placeholderOf (S "A", TVal.s (S "__B__")).1 = S "__A__" from by decide]
    rw [show ((S "A", TVal.s (S "__B__")).2).toStr = S "__B__" from by decide]
    rw [hs1]
    rw [show placeholderOf (S "B", TVal.s (S "x")).1 = S "__B__" from by decide]
    rw [show ((S "B", TVal.s (S "x")).2).toStr = S "x" from by decide]
    rw [hs2]
  have hsim : simSubst varsAB (S "__A__") = S "__B__" := by
    rw [simSubst_found varsAB (S "__A__") (S "A", TVal.s (S "__B__")) (by decide) (by decide)]
    rw [show (S "__A__").drop (placeholderOf (S "A", TVal.s (S "__B__")).1).length = ([] : Str)
        from by decide]
    rw [simSubst_nil]
    decide
  refine ⟨?_, hsim, by decide⟩
  unfold load_and_render_template
  rw [show dictGet? cacheT (S "t.js") = some (S "__A__") from by decide]
  show Except.ok (renderTemplate (S "__A__") varsAB, cacheT) = Except.ok (S "x", cacheT)
  rw [hrender]

/-- C9 (amended): the loader reads the file once (a successful call
leaves the template in the cache, and a cached call never consults the
file system); rendering is one sequential `str.replace` per entry in
map order, so placeholder text inside an earlier-inserted value IS
substituted by later entries; one replacement rewrites exactly the
pattern occurrences (splitting lemma); and a template containing no
contributed placeholder is returned unchanged. -/
theorem c9_amended :
    (∀ (fs : Str → Option Str) cache name vars rendered cache',
        load_and_render_template fs cache name vars = .ok (rendered, cache') →
        (dictGet? cache' name).isSome = true) ∧
    (∀ (fs1 fs2 : Str → Option Str) cache name vars,
        (dictGet? cache name).isSome = true →
        load_and_render_template fs1 cache name vars
          = load_and_render_template fs2 cache name vars) ∧
    (∀ pat rep a b, pat ≠ [] →
        (∀ i, i < a.length → startsWith pat ((a ++ pat ++ b).drop i) = false) →
        substAll pat rep (a ++ pat ++ b) = a ++ rep ++ substAll pat rep b) ∧
    (∀ template vars,
        (∀ kv ∈ vars, occursIn (placeholderOf kv.1) template = false) →
        renderTemplate template vars = template) := by
  refine ⟨?_, ?_, substAll_append, renderTemplate_of_absent⟩
  · intro fs cache name vars rendered cache' h
    unfold load_and_render_template at h
    cases hc : dictGet? cache name with
    | some tmpl =>
        rw [hc] at h
        simp only [Except.ok.injEq, Prod.mk.injEq] at h
        rw [← h.2, hc]
        rfl
    | none =>
        rw [hc] at h
        cases hf : fs name with
        | none => rw [hf] at h; exact absurd h (by simp)
        | some tmpl =>
            rw [hf] at h
            simp only [Except.ok.injEq, Prod.mk.injEq] at h
            rw [← h.2, dictGet?_dictSet_self]
            rfl
  · intro fs1 fs2 cache name vars h
    unfold load_and_render_template
    cases hc : dictGet? cache name with
    | some tmpl => rfl
    | none => rw [hc] at h; simp at h

/-- C9 witness: the amended theorem applied to the preloaded cache and
a placeholder-free template. -/
theorem c9_amended_witness :
    (dictGet? cacheT (S "t.js")).isSome = true ∧
    load_and_render_template (fun _ => none) cacheT (S "t.js") varsAB
      = load_and_render_template (fun _ => some (S "ZZZ")) cacheT (S "t.js") varsAB ∧
    renderTemplate (S "no placeholders here") varsAB = S "no placeholders here" := by
  refine ⟨by decide, c9_amended.2.1 _ _ _ _ _ (by decide), c9_amended.2.2.2 _ _ ?_⟩
  intro kv hm
  fin_cases hm <;> decide

/-- C7: the spec says a urlToFile entry exists only if body bytes were
actually written - but `handle_response` records the url_map entry
before retrieving the body and never rolls it back: when the driver
body retrieval raises and the HTTP-replay fallback also fails, the
entry remains (nothing was written, the error counter is bumped, yet
the URL maps to a file path). -/
theorem c7_counterexample :
    (handle_response md5stub respCss (S "out") bodyGone false false st0).2 = false ∧
    (handle_response md5stub respCss (S "out") bodyGone false false st0).1.errors = 1 ∧
    dictGet? (handle_response md5stub respCss (S "out") bodyGone false false st0).1.url_map
        respCss.url
      = some (S "stylesheets/style_01234567.css") := by
  decide

/-- C7 (amended): for every fresh URL of a recognized resource type and
non-redirect status, `handle_response` leaves a url_map entry for the
URL whatever the body outcome - the entry is written before body
retrieval and never removed - so urlToFile is a superset of the URLs
whose bytes reached disk, not the exact set. -/
theorem c7_amended (md5hex : Str → Str) (resp : RespInput) (out_dir : Str)
    (body : BodyResult) (writeOk fallbackOk : Bool) (st : ResState)
    (h1 : dictGet? st.url_map resp.url = none)
    (h2 : [S "document", S "stylesheet", S "script", S "image", S "font",
           S "media", S "xhr", S "fetch", S "other"].contains resp.resource_type = true)
    (h3 : (300 ≤ resp.status && resp.status < 400) = false) :
    (dictGet? (handle_response md5hex resp out_dir body writeOk fallbackOk st).1.url_map
        resp.url).isSome = true := by
  unfold handle_response
  rw [h1, h2, h3]
  simp only [Option.isSome_none, Bool.not_true, Bool.false_eq_true, if_false]
  cases body with
  | bytes nonempty =>
      cases nonempty with
      | false =>
          cases fallbackOk <;>
            simp [dictGet?_dictSet_self]
      | true =>
          cases writeOk <;>
            simp [dictGet?_dictSet_self]
  | raised msg =>
      by_cases hm : (occursIn (S "Network.getResponseBody") msg || occursIn (S "empty") msg) = true
      · cases fallbackOk <;>
          simp [hm, dictGet?_dictSet_self]
      · rw [Bool.not_eq_true] at hm
        simp [hm, dictGet?_dictSet_self]

/-- C7 witness: the amended theorem applied to the stylesheet response
above with a failed body and failed fallback. -/
theorem c7_amended_witness :
    (dictGet? (handle_response md5stub respCss (S "out") bodyGone false false st0).1.url_map
        respCss.url).isSome = true :=
  c7_amended md5stub respCss (S "out") bodyGone false false st0
    (by decide) (by decide) (by decide)
